import Mathlib

/-!
Shallow embedding of the superglue Python SDK's typed request/response
contract layer (packages/sdk/python/superglue_client and superglue_sdk):
model-layer (de)serialization (`to_dict` / `from_dict`), enum coercion,
endpoint request building (`_get_kwargs`) and response mapping
(`_parse_response` / `_build_response`), together with proofs of the
specification's testable properties.

Python values flowing over the wire are modelled by `Json`; Python dicts
by insertion-ordered association lists (`JDict`) with Python `dict`
semantics for `update`, `pop` and key lookup; Python exceptions raised
during decoding (`KeyError`, `ValueError`, `TypeError`) by the error side
of `Except`.
-/

namespace Superglue

/-- A JSON value (the result of `response.json()` / the contents of a
Python dict passed to `from_dict`).  Numbers are modelled as integers;
no claim concerns floating-point payloads. -/
inductive Json where
  | null : Json
  | bool (b : Bool) : Json
  | num (n : Int) : Json
  | str (s : String) : Json
  | arr (xs : List Json) : Json
  | obj (fields : List (String × Json)) : Json
  deriving Repr

/-- A Python dict with `String` keys, as an insertion-ordered association
list (Python dicts preserve insertion order). -/
abbrev JDict := List (String × Json)

/-- The keys of a dict, in order. -/
def dkeys (d : JDict) : List String := d.map Prod.fst

/-- `d[k]` / `d.get(k)`: the value at key `k`, if present. -/
def dget : JDict → String → Option Json
  | [], _ => none
  | (k, v) :: rest, key => if k = key then some v else dget rest key

/-- Removal of key `k` (the mutation performed by `d.pop(k)`). -/
def derase : JDict → String → JDict
  | [], _ => []
  | (k, v) :: rest, key => if k = key then derase rest key else (k, v) :: derase rest key

/-- `d[key] = v` (also one step of `dict.update`): replace in place when
the key is present, append otherwise. -/
def dinsert (d : JDict) (key : String) (v : Json) : JDict :=
  if key ∈ dkeys d then d.map (fun kv => if kv.1 = key then (key, v) else kv)
  else d ++ [(key, v)]

/-- The generated serializers emit `if field is not UNSET: field_dict[k] = field`;
`none` models `UNSET`. -/
def dinsertOpt (d : JDict) (key : String) : Option Json → JDict
  | none => d
  | some v => dinsert d key v

/-- A Python exception escaping a decoder: `KeyError` from `d.pop(k)` on a
missing key, `ValueError` from an enum constructor or `isoparse`, and
`TypeError` from `dict(x)` / iteration over a non-iterable value. -/
inductive PyErr where
  | keyError (k : String) : PyErr
  | valueError : PyErr
  | typeError : PyErr
  deriving DecidableEq, Repr

/-! ### Datetimes

Timestamp fields hold Python `datetime.datetime` values, serialized with
`datetime.isoformat()` and parsed with `dateutil.parser.isoparse`.  A
datetime is modelled by its components; `isoformat` is implemented
exactly (YYYY-MM-DDTHH:MM:SS, optional `.ffffff` when the microsecond
part is nonzero, optional `±HH:MM` UTC offset).  The parser is modelled
on the canonical `isoformat` grammar (`dateutil` accepts a superset of
it; only canonical strings arise in the round-trip properties). -/

/-- A fixed UTC offset (`timezone(timedelta(...))`): sign and
hour/minute magnitudes. -/
structure TzOffset where
  neg : Bool
  hh : Nat
  mm : Nat
  deriving DecidableEq, Repr

/-- A Python `datetime.datetime`, by components; `tz = none` is a naive
datetime. -/
structure PyDatetime where
  year : Nat
  month : Nat
  day : Nat
  hour : Nat
  minute : Nat
  second : Nat
  microsecond : Nat
  tz : Option TzOffset
  deriving DecidableEq, Repr

/-- Bounds satisfied by every Python `datetime` (year ≤ 9999 etc.),
which make the fixed-width decimal rendering invertible. -/
def PyDatetime.Valid (d : PyDatetime) : Prop :=
  d.year < 10000 ∧ d.month < 100 ∧ d.day < 100 ∧ d.hour < 100 ∧
    d.minute < 100 ∧ d.second < 100 ∧ d.microsecond < 1000000 ∧
    (∀ t ∈ d.tz, t.hh < 100 ∧ t.mm < 100)

instance (d : PyDatetime) : Decidable d.Valid := by
  unfold PyDatetime.Valid
  exact inferInstance

/-- `w`-digit zero-padded decimal rendering of `v % 10^w` (`"%04d" % v`
and friends), most significant digit first. -/
def pad : Nat → Nat → List Char
  | 0, _ => []
  | w + 1, v => Nat.digitChar (v / 10 ^ w % 10) :: pad w v

/-- Consume exactly `n` decimal digits, extending the accumulator. -/
def readDigits : Nat → Nat → List Char → Option (Nat × List Char)
  | 0, acc, cs => some (acc, cs)
  | n + 1, acc, c :: cs =>
      if c.isDigit then readDigits n (acc * 10 + (c.toNat - 48)) cs else none
  | _ + 1, _, [] => none

/-- The `±HH:MM` suffix `datetime.isoformat` renders for an aware
datetime. -/
def TzOffset.render (t : TzOffset) : List Char :=
  (if t.neg then '-' else '+') :: (pad 2 t.hh ++ ':' :: pad 2 t.mm)

/-- The (possibly empty) UTC-offset suffix of `datetime.isoformat`. -/
def tzSuffix : Option TzOffset → List Char
  | none => []
  | some t => t.render

/-- `datetime.isoformat()`, as a character list. -/
def PyDatetime.isoformatChars (d : PyDatetime) : List Char :=
  pad 4 d.year ++ '-' :: (pad 2 d.month ++ '-' :: (pad 2 d.day ++ 'T' ::
    (pad 2 d.hour ++ ':' :: (pad 2 d.minute ++ ':' :: (pad 2 d.second ++
      ((if d.microsecond = 0 then [] else '.' :: pad 6 d.microsecond) ++
        tzSuffix d.tz))))))

/-- `datetime.isoformat()`. -/
def PyDatetime.isoformat (d : PyDatetime) : String :=
  ⟨d.isoformatChars⟩

/-- The optional fractional-seconds part of a canonical ISO string. -/
def parseFrac : List Char → Option (Nat × List Char)
  | [] => some (0, [])
  | c :: cs =>
      if c = '.' then readDigits 6 0 cs
      else some (0, c :: cs)

/-- The optional UTC-offset suffix of a canonical ISO string; must end
the input. -/
def parseTz : List Char → Option (Option TzOffset)
  | [] => some none
  | c :: cs =>
      if c = '+' ∨ c = '-' then
        match readDigits 2 0 cs with
        | some (hh, ':' :: cs1) =>
            match readDigits 2 0 cs1 with
            | some (mm, []) => some (some ⟨decide (c = '-'), hh, mm⟩)
            | _ => none
        | _ => none
      else none

/-- Parse the canonical `isoformat` rendering back into components
(the behavior of `dateutil.parser.isoparse` on such strings). -/
def parseIsoChars (cs : List Char) : Option PyDatetime :=
  match readDigits 4 0 cs with
  | some (year, '-' :: cs1) =>
    match readDigits 2 0 cs1 with
    | some (month, '-' :: cs2) =>
      match readDigits 2 0 cs2 with
      | some (day, 'T' :: cs3) =>
        match readDigits 2 0 cs3 with
        | some (hour, ':' :: cs4) =>
          match readDigits 2 0 cs4 with
          | some (minute, ':' :: cs5) =>
            match readDigits 2 0 cs5 with
            | some (second, cs6) =>
              match parseFrac cs6 with
              | some (usec, cs7) =>
                match parseTz cs7 with
                | some tz => some ⟨year, month, day, hour, minute, second, usec, tz⟩
                | none => none
              | none => none
            | _ => none
          | _ => none
        | _ => none
      | _ => none
    | _ => none
  | _ => none

/-- `dateutil.parser.isoparse` on a string. -/
def parseIso (s : String) : Option PyDatetime :=
  parseIsoChars s.data

/-! ### Round-trip of the datetime rendering -/

theorem digitChar_isDigit : ∀ d, d < 10 → (Nat.digitChar d).isDigit = true := by decide

theorem digitChar_toNat : ∀ d, d < 10 → (Nat.digitChar d).toNat - 48 = d := by decide

theorem readDigits_pad (n : Nat) :
    ∀ (acc v : Nat) (rest : List Char),
      readDigits n acc (pad n v ++ rest) = some (acc * 10 ^ n + v % 10 ^ n, rest) := by
  induction n with
  | zero =>
      intro acc v rest
      simp [pad, readDigits, Nat.mod_one]
  | succ n ih =>
      intro acc v rest
      have hd : v / 10 ^ n % 10 < 10 := Nat.mod_lt _ (by norm_num)
      have harith : (acc * 10 + v / 10 ^ n % 10) * 10 ^ n + v % 10 ^ n
          = acc * 10 ^ (n + 1) + v % 10 ^ (n + 1) := by
        rw [pow_succ, Nat.mod_mul]
        ring
      simp only [pad, List.cons_append, readDigits, digitChar_isDigit _ hd, if_true,
        digitChar_toNat _ hd, List.append_eq, ih, harith]

theorem readDigits_pad2 {v : Nat} (h : v < 100) (rest : List Char) :
    readDigits 2 0 (pad 2 v ++ rest) = some (v, rest) := by
  rw [readDigits_pad]
  simp [Nat.mod_eq_of_lt h]

theorem readDigits_pad2_nil {v : Nat} (h : v < 100) :
    readDigits 2 0 (pad 2 v) = some (v, []) := by
  rw [show pad 2 v = pad 2 v ++ [] by simp]
  exact readDigits_pad2 h []

theorem readDigits_pad4 {v : Nat} (h : v < 10000) (rest : List Char) :
    readDigits 4 0 (pad 4 v ++ rest) = some (v, rest) := by
  rw [readDigits_pad]
  simp [Nat.mod_eq_of_lt h]

theorem readDigits_pad6 {v : Nat} (h : v < 1000000) (rest : List Char) :
    readDigits 6 0 (pad 6 v ++ rest) = some (v, rest) := by
  rw [readDigits_pad]
  simp [Nat.mod_eq_of_lt h]

theorem parseTz_tzSuffix (tz : Option TzOffset)
    (h : ∀ t ∈ tz, t.hh < 100 ∧ t.mm < 100) :
    parseTz (tzSuffix tz) = some tz := by
  cases tz with
  | none => rfl
  | some t =>
      obtain ⟨sgn, hh, mm⟩ := t
      obtain ⟨h1, h2⟩ := h _ rfl
      cases sgn <;>
        simp [tzSuffix, TzOffset.render, parseTz, readDigits_pad2 h1,
          readDigits_pad2_nil h2]

theorem parseFrac_tzSuffix (tz : Option TzOffset) :
    parseFrac (tzSuffix tz) = some (0, tzSuffix tz) := by
  cases tz with
  | none => rfl
  | some t =>
      obtain ⟨sgn, hh, mm⟩ := t
      cases sgn <;> simp [tzSuffix, TzOffset.render, parseFrac]

theorem parseFrac_frac (us : Nat) (hus : us < 1000000) (tz : Option TzOffset) :
    parseFrac ((if us = 0 then [] else '.' :: pad 6 us) ++ tzSuffix tz)
      = some (us, tzSuffix tz) := by
  by_cases h0 : us = 0
  · subst h0
    simpa using parseFrac_tzSuffix tz
  · simp only [if_neg h0, List.cons_append, parseFrac, if_pos rfl]
    exact readDigits_pad6 hus _

/-- `isoparse` inverts `isoformat` on every real Python datetime. -/
theorem parseIso_isoformat (d : PyDatetime) (h : d.Valid) :
    parseIso d.isoformat = some d := by
  obtain ⟨hy, hmo, hdd, hhh, hmi, hss, hus, htz⟩ := h
  show parseIsoChars d.isoformatChars = some d
  simp only [PyDatetime.isoformatChars,
    parseIsoChars, readDigits_pad4 hy, readDigits_pad2 hmo, readDigits_pad2 hdd,
    readDigits_pad2 hhh, readDigits_pad2 hmi, readDigits_pad2 hss,
    parseFrac_frac d.microsecond hus d.tz, parseTz_tzSuffix d.tz htz]

/-! ### Status enums

Each generated enum is a `str`-valued `Enum`; `EnumClass(value)` raises
`ValueError` when the value is not one of the declared literals. -/

inductive RunStatus where
  | ABORTED | FAILED | RUNNING | SUCCESS
  deriving DecidableEq, Repr

def RunStatus.val : RunStatus → String
  | .ABORTED => "aborted"
  | .FAILED => "failed"
  | .RUNNING => "running"
  | .SUCCESS => "success"

/-- `RunStatus(value)` on a string. -/
def RunStatus.ofVal (s : String) : Except PyErr RunStatus :=
  if s = "aborted" then .ok .ABORTED
  else if s = "failed" then .ok .FAILED
  else if s = "running" then .ok .RUNNING
  else if s = "success" then .ok .SUCCESS
  else .error .valueError

/-- `RunStatus(value)`: a non-string wire value is not a member either. -/
def RunStatus.ofJson : Json → Except PyErr RunStatus
  | .str s => RunStatus.ofVal s
  | _ => .error .valueError

inductive ListRunsStatus where
  | ABORTED | FAILED | RUNNING | SUCCESS
  deriving DecidableEq, Repr

def ListRunsStatus.val : ListRunsStatus → String
  | .ABORTED => "aborted"
  | .FAILED => "failed"
  | .RUNNING => "running"
  | .SUCCESS => "success"

def ListRunsStatus.ofVal (s : String) : Except PyErr ListRunsStatus :=
  if s = "aborted" then .ok .ABORTED
  else if s = "failed" then .ok .FAILED
  else if s = "running" then .ok .RUNNING
  else if s = "success" then .ok .SUCCESS
  else .error .valueError

inductive PaginationType where
  | CURSORBASED | DISABLED | OFFSETBASED | PAGEBASED
  deriving DecidableEq, Repr

def PaginationType.val : PaginationType → String
  | .CURSORBASED => "cursorBased"
  | .DISABLED => "disabled"
  | .OFFSETBASED => "offsetBased"
  | .PAGEBASED => "pageBased"

def PaginationType.ofVal (s : String) : Except PyErr PaginationType :=
  if s = "cursorBased" then .ok .CURSORBASED
  else if s = "disabled" then .ok .DISABLED
  else if s = "offsetBased" then .ok .OFFSETBASED
  else if s = "pageBased" then .ok .PAGEBASED
  else .error .valueError

def PaginationType.ofJson : Json → Except PyErr PaginationType
  | .str s => PaginationType.ofVal s
  | _ => .error .valueError

inductive ToolStepMethod where
  | DELETE | GET | HEAD | OPTIONS | PATCH | POST | PUT
  deriving DecidableEq, Repr

def ToolStepMethod.val : ToolStepMethod → String
  | .DELETE => "DELETE"
  | .GET => "GET"
  | .HEAD => "HEAD"
  | .OPTIONS => "OPTIONS"
  | .PATCH => "PATCH"
  | .POST => "POST"
  | .PUT => "PUT"

def ToolStepMethod.ofVal (s : String) : Except PyErr ToolStepMethod :=
  if s = "DELETE" then .ok .DELETE
  else if s = "GET" then .ok .GET
  else if s = "HEAD" then .ok .HEAD
  else if s = "OPTIONS" then .ok .OPTIONS
  else if s = "PATCH" then .ok .PATCH
  else if s = "POST" then .ok .POST
  else if s = "PUT" then .ok .PUT
  else .error .valueError

def ToolStepMethod.ofJson : Json → Except PyErr ToolStepMethod
  | .str s => ToolStepMethod.ofVal s
  | _ => .error .valueError

inductive ToolStepFailureBehavior where
  | CONTINUE | FAIL
  deriving DecidableEq, Repr

def ToolStepFailureBehavior.val : ToolStepFailureBehavior → String
  | .CONTINUE => "continue"
  | .FAIL => "fail"

def ToolStepFailureBehavior.ofVal (s : String) : Except PyErr ToolStepFailureBehavior :=
  if s = "continue" then .ok .CONTINUE
  else if s = "fail" then .ok .FAIL
  else .error .valueError

def ToolStepFailureBehavior.ofJson : Json → Except PyErr ToolStepFailureBehavior
  | .str s => ToolStepFailureBehavior.ofVal s
  | _ => .error .valueError

theorem runStatus_ofVal_val (e : RunStatus) : RunStatus.ofVal e.val = .ok e := by
  cases e <;> rfl

theorem listRunsStatus_ofVal_val (e : ListRunsStatus) :
    ListRunsStatus.ofVal e.val = .ok e := by
  cases e <;> rfl

theorem paginationType_ofVal_val (e : PaginationType) :
    PaginationType.ofVal e.val = .ok e := by
  cases e <;> rfl

theorem toolStepMethod_ofVal_val (e : ToolStepMethod) :
    ToolStepMethod.ofVal e.val = .ok e := by
  cases e <;> rfl

theorem failureBehavior_ofVal_val (e : ToolStepFailureBehavior) :
    ToolStepFailureBehavior.ofVal e.val = .ok e := by
  cases e <;> rfl

/-! ### Free-form submodels and the generated decoding patterns -/

/-- Modelled from the spec: the source files of the free-form object
models (RunRequestInputs, RunRequestCredentials, RunTool, RunToolPayload,
RunData, RunStepResultsItem, RunOptions, ToolStepHeaders,
ToolStepQueryParams, ToolInputSchema, ToolOutputSchema, ErrorError) are
not under src/.  Per the spec these records "parse strictly-known fields
into a typed struct; retain everything else in an open ordered mapping",
and declare no known fields, so each carries only the
additional-properties bag: `to_dict` re-emits the bag verbatim and
`from_dict(x)` is `dict(x)` (raising `TypeError` on a non-dict such as
`None`). -/
structure PropBag where
  additional_properties : JDict
  deriving Repr

def PropBag.toDict (b : PropBag) : JDict := b.additional_properties

def PropBag.fromJson : Json → Except PyErr PropBag
  | .obj d => .ok ⟨d⟩
  | _ => .error .typeError

/-- The generated optional-submodel pattern:
`x = d.pop(k, UNSET); if isinstance(x, Unset): UNSET else Sub.from_dict(x)`. -/
def decodeOpt {α : Type} (dec : Json → Except PyErr α) :
    Option Json → Except PyErr (Option α)
  | none => .ok none
  | some j => (dec j).map some

/-- Element-wise decoding of a list body (`for item in xs: ...`),
stopping at the first exception. -/
def decodeList {α : Type} (dec : Json → Except PyErr α) :
    List Json → Except PyErr (List α)
  | [] => .ok []
  | x :: xs =>
      match dec x with
      | .error e => .error e
      | .ok a => (decodeList dec xs).map (a :: ·)

/-- Iterating a wire value as a list (`for item in v: ...`); iterating a
non-list such as `None` raises `TypeError`. -/
def decodeListJson {α : Type} (dec : Json → Except PyErr α) :
    Json → Except PyErr (List α)
  | .arr xs => decodeList dec xs
  | _ => .error .typeError

/-- The generated optional-list pattern:
`xs = d.pop(k, UNSET); if xs is not UNSET: for item in xs: ...` — note the
only test is against the `UNSET` sentinel, so an explicit `null` is
iterated and raises `TypeError`. -/
def decodeOptList {α : Type} (dec : Json → Except PyErr α) :
    Option Json → Except PyErr (Option (List α))
  | none => .ok none
  | some j => (decodeListJson dec j).map some

/-- The generated optional-timestamp pattern: absent stays `UNSET`,
otherwise `isoparse(x)` (`TypeError` on a non-string such as `None`,
`ValueError` on an unparseable string). -/
def decodeOptDatetime : Option Json → Except PyErr (Option PyDatetime)
  | none => .ok none
  | some (.str s) =>
      match parseIso s with
      | some d => .ok (some d)
      | none => .error .valueError
  | some _ => .error .typeError

theorem decodeOpt_map {α : Type} (dec : Json → Except PyErr α) (enc : α → Json)
    (o : Option α) (henc : ∀ a ∈ o, dec (enc a) = .ok a) :
    decodeOpt dec (o.map enc) = .ok o := by
  cases o with
  | none => rfl
  | some a => simp [decodeOpt, henc a rfl, Except.map]

theorem decodeList_map {α : Type} (dec : Json → Except PyErr α) (enc : α → Json)
    (xs : List α) (henc : ∀ a ∈ xs, dec (enc a) = .ok a) :
    decodeList dec (xs.map enc) = .ok xs := by
  induction xs with
  | nil => rfl
  | cons a xs ih =>
      simp only [List.map_cons, decodeList, henc a (by simp)]
      rw [ih fun b hb => henc b (by simp [hb])]
      rfl

theorem decodeOptList_map {α : Type} (dec : Json → Except PyErr α) (enc : α → Json)
    (o : Option (List α)) (henc : ∀ xs ∈ o, ∀ a ∈ xs, dec (enc a) = .ok a) :
    decodeOptList dec (o.map fun xs => Json.arr (xs.map enc)) = .ok o := by
  cases o with
  | none => rfl
  | some xs =>
      simp [decodeOptList, decodeListJson, decodeList_map dec enc xs (henc xs rfl),
        Except.map]

theorem decodeOptDatetime_map (o : Option PyDatetime)
    (h : ∀ d ∈ o, d.Valid) :
    decodeOptDatetime (o.map fun d => Json.str d.isoformat) = .ok o := by
  cases o with
  | none => rfl
  | some d => simp [decodeOptDatetime, parseIso_isoformat d (h d rfl)]

theorem decodeOpt_bag (o : Option PropBag) :
    decodeOpt PropBag.fromJson (o.map fun b => Json.obj b.additional_properties)
      = .ok o :=
  decodeOpt_map _ _ o fun _ _ => rfl

/-! ### Dict lemmas -/

/-- The singleton dict emitted for an optional field that is present
(`[]` when the field is `UNSET`). -/
def optE (k : String) : Option Json → JDict
  | none => []
  | some v => [(k, v)]

theorem dkeys_nil : dkeys [] = [] := rfl

theorem dkeys_cons (kv : String × Json) (d : JDict) :
    dkeys (kv :: d) = kv.1 :: dkeys d := rfl

theorem dkeys_append (d1 d2 : JDict) : dkeys (d1 ++ d2) = dkeys d1 ++ dkeys d2 :=
  List.map_append _ _ _

theorem dget_eq_none_of_not_mem {d : JDict} {k : String} (h : k ∉ dkeys d) :
    dget d k = none := by
  induction d with
  | nil => rfl
  | cons kv rest ih =>
      rw [dkeys_cons, List.mem_cons, not_or] at h
      simp only [dget, if_neg (Ne.symm h.1), ih h.2]

theorem derase_eq_of_not_mem {d : JDict} {k : String} (h : k ∉ dkeys d) :
    derase d k = d := by
  induction d with
  | nil => rfl
  | cons kv rest ih =>
      rw [dkeys_cons, List.mem_cons, not_or] at h
      simp only [derase, if_neg (Ne.symm h.1), ih h.2]

theorem dinsert_not_mem {d : JDict} {k : String} (v : Json) (h : k ∉ dkeys d) :
    dinsert d k v = d ++ [(k, v)] := by
  simp [dinsert, h]

theorem dinsertOpt_optE {d : JDict} {k : String} (o : Option Json) (h : k ∉ dkeys d) :
    dinsertOpt d k o = d ++ optE k o := by
  cases o with
  | none => simp [dinsertOpt, optE]
  | some v => simp [dinsertOpt, dinsert_not_mem v h, optE]

theorem dget_append_right {d1 : JDict} (d2 : JDict) {k : String} (h : k ∉ dkeys d1) :
    dget (d1 ++ d2) k = dget d2 k := by
  induction d1 with
  | nil => rfl
  | cons kv rest ih =>
      rw [dkeys_cons, List.mem_cons, not_or] at h
      simp only [List.cons_append, dget, if_neg (Ne.symm h.1), List.append_eq]
      exact ih h.2

theorem derase_append_left {d1 : JDict} (d2 : JDict) {k : String} (h : k ∉ dkeys d1) :
    derase (d1 ++ d2) k = d1 ++ derase d2 k := by
  induction d1 with
  | nil => rfl
  | cons kv rest ih =>
      rw [dkeys_cons, List.mem_cons, not_or] at h
      simp only [List.cons_append, derase, if_neg (Ne.symm h.1), List.append_eq]
      rw [ih h.2]

theorem dget_optE_self {d : JDict} {k : String} (o : Option Json) (h : k ∉ dkeys d) :
    dget (optE k o ++ d) k = o := by
  cases o with
  | none => exact dget_eq_none_of_not_mem h
  | some v => simp [optE, dget]

theorem dget_optE_ne {k k' : String} (o : Option Json) (d : JDict) (h : k' ≠ k) :
    dget (optE k o ++ d) k' = dget d k' := by
  cases o with
  | none => rfl
  | some v => simp [optE, dget, if_neg (Ne.symm h)]

theorem derase_optE_self {d : JDict} {k : String} (o : Option Json) (h : k ∉ dkeys d) :
    derase (optE k o ++ d) k = d := by
  cases o with
  | none => exact derase_eq_of_not_mem h
  | some v => simp [optE, derase, derase_eq_of_not_mem h]

theorem derase_optE_ne {k k' : String} (o : Option Json) (d : JDict) (h : k' ≠ k) :
    derase (optE k o ++ d) k' = optE k o ++ derase d k' := by
  cases o with
  | none => rfl
  | some v => simp [optE, derase, if_neg (Ne.symm h)]

theorem not_mem_dkeys_optE {k k' : String} (o : Option Json) (h : k' ≠ k) :
    k' ∉ dkeys (optE k o) := by
  cases o with
  | none => simp [optE, dkeys_nil]
  | some v => simp [optE, dkeys_cons, dkeys_nil, h]

theorem dkeys_map_replace (d : JDict) (k : String) (v : Json) :
    dkeys (d.map fun kv => if kv.1 = k then (k, v) else kv) = dkeys d := by
  induction d with
  | nil => rfl
  | cons kv rest ih =>
      by_cases hk : kv.1 = k <;>
        simp [dkeys_cons, hk, ih]

theorem dkeys_dinsert (d : JDict) (k : String) (v : Json) :
    dkeys (dinsert d k v) = if k ∈ dkeys d then dkeys d else dkeys d ++ [k] := by
  unfold dinsert
  split
  · exact dkeys_map_replace d k v
  · simp [dkeys_append, dkeys_cons, dkeys_nil]

theorem not_mem_dkeys_dinsert {d : JDict} {k k' : String} (v : Json)
    (hne : k' ≠ k) (h : k' ∉ dkeys d) : k' ∉ dkeys (dinsert d k v) := by
  rw [dkeys_dinsert]
  split <;> simp [h, hne]

theorem not_mem_dkeys_dinsertOpt {d : JDict} {k k' : String} (o : Option Json)
    (hne : k' ≠ k) (h : k' ∉ dkeys d) : k' ∉ dkeys (dinsertOpt d k o) := by
  cases o with
  | none => exact h
  | some v => exact not_mem_dkeys_dinsert v hne h

theorem not_mem_dkeys_derase {d : JDict} {k k' : String} (h : k ∉ dkeys d) :
    k ∉ dkeys (derase d k') := by
  induction d with
  | nil => simp [derase, dkeys_nil]
  | cons kv rest ih =>
      rw [dkeys_cons, List.mem_cons, not_or] at h
      simp only [derase]
      split
      · exact ih h.2
      · rw [dkeys_cons, List.mem_cons, not_or]
        exact ⟨h.1, ih h.2⟩

theorem not_mem_dkeys_derase_self (d : JDict) (k : String) :
    k ∉ dkeys (derase d k) := by
  induction d with
  | nil => simp [derase, dkeys_nil]
  | cons kv rest ih =>
      simp only [derase]
      split
      · exact ih
      · rename_i hk
        rw [dkeys_cons, List.mem_cons, not_or]
        exact ⟨fun hh => hk hh.symm, ih⟩

/-! ### Model layer

Each entity mirrors its generated Python class.  A plain optional field
(`str | Unset`, `int | Unset`, `bool | Unset`) holds the raw popped wire
value — the generated code performs no type check on it — with `none`
modelling `UNSET`.  Required plain fields (`run_id`, `tool_id`, ...)
likewise hold the raw popped value.  Submodel fields hold decoded
records, timestamp fields decoded datetimes, enum fields decoded enum
members. -/

/-- `superglue_sdk/models/run_request_options.py` — `RunRequestOptions`.
Constructor defaults: `async_ = False`, everything else `UNSET`. -/
structure RunRequestOptions where
  async_ : Option Json := some (.bool false)
  timeout : Option Json := none
  webhook_url : Option Json := none
  trace_id : Option Json := none
  additional_properties : JDict := []
  deriving Repr

/-- `RunRequestOptions.to_dict`. -/
def RunRequestOptions.toDict (r : RunRequestOptions) : JDict :=
  let fd := r.additional_properties
  let fd := dinsertOpt fd "async" r.async_
  let fd := dinsertOpt fd "timeout" r.timeout
  let fd := dinsertOpt fd "webhookUrl" r.webhook_url
  dinsertOpt fd "traceId" r.trace_id

/-- `RunRequestOptions.from_dict`. -/
def RunRequestOptions.fromDict : Json → Except PyErr RunRequestOptions
  | .obj d0 =>
      let async_ := dget d0 "async"
      let d1 := derase d0 "async"
      let timeout := dget d1 "timeout"
      let d2 := derase d1 "timeout"
      let webhook_url := dget d2 "webhookUrl"
      let d3 := derase d2 "webhookUrl"
      let trace_id := dget d3 "traceId"
      let d4 := derase d3 "traceId"
      .ok ⟨async_, timeout, webhook_url, trace_id, d4⟩
  | _ => .error .typeError

/-- `superglue_client/models/run_request.py` — `RunRequest`. -/
structure RunRequest where
  run_id : Option Json := none
  inputs : Option PropBag := none
  credentials : Option PropBag := none
  options : Option RunRequestOptions := none
  additional_properties : JDict := []
  deriving Repr

/-- `RunRequest.to_dict`. -/
def RunRequest.toDict (r : RunRequest) : JDict :=
  let fd := r.additional_properties
  let fd := dinsertOpt fd "runId" r.run_id
  let fd := dinsertOpt fd "inputs" (r.inputs.map fun b => .obj b.toDict)
  let fd := dinsertOpt fd "credentials" (r.credentials.map fun b => .obj b.toDict)
  dinsertOpt fd "options" (r.options.map fun o => .obj o.toDict)

/-- `RunRequest.from_dict`. -/
def RunRequest.fromDict : Json → Except PyErr RunRequest
  | .obj d0 =>
      let run_id := dget d0 "runId"
      let d1 := derase d0 "runId"
      match decodeOpt PropBag.fromJson (dget d1 "inputs") with
      | .error e => .error e
      | .ok inputs =>
      let d2 := derase d1 "inputs"
      match decodeOpt PropBag.fromJson (dget d2 "credentials") with
      | .error e => .error e
      | .ok credentials =>
      let d3 := derase d2 "credentials"
      match decodeOpt RunRequestOptions.fromDict (dget d3 "options") with
      | .error e => .error e
      | .ok options =>
      let d4 := derase d3 "options"
      .ok ⟨run_id, inputs, credentials, options, d4⟩
  | _ => .error .typeError

/-- `superglue_sdk/models/run_metadata.py` — `RunMetadata`. -/
structure RunMetadata where
  started_at : Option PyDatetime := none
  completed_at : Option PyDatetime := none
  duration_ms : Option Json := none
  additional_properties : JDict := []
  deriving Repr

/-- `RunMetadata.to_dict`. -/
def RunMetadata.toDict (m : RunMetadata) : JDict :=
  let fd := m.additional_properties
  let fd := dinsertOpt fd "startedAt" (m.started_at.map fun t => .str t.isoformat)
  let fd := dinsertOpt fd "completedAt" (m.completed_at.map fun t => .str t.isoformat)
  dinsertOpt fd "durationMs" m.duration_ms

/-- `RunMetadata.from_dict`. -/
def RunMetadata.fromDict : Json → Except PyErr RunMetadata
  | .obj d0 =>
      match decodeOptDatetime (dget d0 "startedAt") with
      | .error e => .error e
      | .ok started_at =>
      let d1 := derase d0 "startedAt"
      match decodeOptDatetime (dget d1 "completedAt") with
      | .error e => .error e
      | .ok completed_at =>
      let d2 := derase d1 "completedAt"
      let duration_ms := dget d2 "durationMs"
      let d3 := derase d2 "durationMs"
      .ok ⟨started_at, completed_at, duration_ms, d3⟩
  | _ => .error .typeError

/-- `superglue_sdk/models/run.py` — `Run`.  The submodels `RunTool`,
`RunToolPayload`, `RunData`, `RunStepResultsItem` and `RunOptions` are
free-form records (see `PropBag`). -/
structure Run where
  run_id : Json
  tool_id : Json
  status : RunStatus
  metadata : RunMetadata
  tool : Option PropBag := none
  tool_payload : Option PropBag := none
  data : Option PropBag := none
  error : Option Json := none
  step_results : Option (List PropBag) := none
  options : Option PropBag := none
  request_source : Option Json := none
  trace_id : Option Json := none
  additional_properties : JDict := []
  deriving Repr

/-- `Run.to_dict`. -/
def Run.toDict (r : Run) : JDict :=
  let fd := r.additional_properties
  let fd := dinsert fd "runId" r.run_id
  let fd := dinsert fd "toolId" r.tool_id
  let fd := dinsert fd "status" (.str r.status.val)
  let fd := dinsert fd "metadata" (.obj r.metadata.toDict)
  let fd := dinsertOpt fd "tool" (r.tool.map fun b => .obj b.toDict)
  let fd := dinsertOpt fd "toolPayload" (r.tool_payload.map fun b => .obj b.toDict)
  let fd := dinsertOpt fd "data" (r.data.map fun b => .obj b.toDict)
  let fd := dinsertOpt fd "error" r.error
  let fd := dinsertOpt fd "stepResults"
    (r.step_results.map fun xs => .arr (xs.map fun b => .obj b.toDict))
  let fd := dinsertOpt fd "options" (r.options.map fun b => .obj b.toDict)
  let fd := dinsertOpt fd "requestSource" r.request_source
  dinsertOpt fd "traceId" r.trace_id

/-- `Run.from_dict`. -/
def Run.fromDict : Json → Except PyErr Run
  | .obj d0 =>
      match dget d0 "runId" with
      | none => .error (.keyError "runId")
      | some run_id =>
      let d1 := derase d0 "runId"
      match dget d1 "toolId" with
      | none => .error (.keyError "toolId")
      | some tool_id =>
      let d2 := derase d1 "toolId"
      match dget d2 "status" with
      | none => .error (.keyError "status")
      | some statusJ =>
      let d3 := derase d2 "status"
      match RunStatus.ofJson statusJ with
      | .error e => .error e
      | .ok status =>
      match dget d3 "metadata" with
      | none => .error (.keyError "metadata")
      | some metadataJ =>
      let d4 := derase d3 "metadata"
      match RunMetadata.fromDict metadataJ with
      | .error e => .error e
      | .ok metadata =>
      match decodeOpt PropBag.fromJson (dget d4 "tool") with
      | .error e => .error e
      | .ok tool =>
      let d5 := derase d4 "tool"
      match decodeOpt PropBag.fromJson (dget d5 "toolPayload") with
      | .error e => .error e
      | .ok tool_payload =>
      let d6 := derase d5 "toolPayload"
      match decodeOpt PropBag.fromJson (dget d6 "data") with
      | .error e => .error e
      | .ok data =>
      let d7 := derase d6 "data"
      let error := dget d7 "error"
      let d8 := derase d7 "error"
      match decodeOptList PropBag.fromJson (dget d8 "stepResults") with
      | .error e => .error e
      | .ok step_results =>
      let d9 := derase d8 "stepResults"
      match decodeOpt PropBag.fromJson (dget d9 "options") with
      | .error e => .error e
      | .ok options =>
      let d10 := derase d9 "options"
      let request_source := dget d10 "requestSource"
      let d11 := derase d10 "requestSource"
      let trace_id := dget d11 "traceId"
      let d12 := derase d11 "traceId"
      .ok ⟨run_id, tool_id, status, metadata, tool, tool_payload, data, error,
        step_results, options, request_source, trace_id, d12⟩
  | _ => .error .typeError

/-- `superglue_sdk/models/pagination.py` — `Pagination`. -/
structure Pagination where
  type_ : PaginationType
  page_size : Option Json := none
  cursor_path : Option Json := none
  stop_condition : Option Json := none
  additional_properties : JDict := []
  deriving Repr

/-- `Pagination.to_dict`. -/
def Pagination.toDict (p : Pagination) : JDict :=
  let fd := p.additional_properties
  let fd := dinsert fd "type" (.str p.type_.val)
  let fd := dinsertOpt fd "pageSize" p.page_size
  let fd := dinsertOpt fd "cursorPath" p.cursor_path
  dinsertOpt fd "stopCondition" p.stop_condition

/-- `Pagination.from_dict`. -/
def Pagination.fromDict : Json → Except PyErr Pagination
  | .obj d0 =>
      match dget d0 "type" with
      | none => .error (.keyError "type")
      | some typeJ =>
      let d1 := derase d0 "type"
      match PaginationType.ofJson typeJ with
      | .error e => .error e
      | .ok type_ =>
      let page_size := dget d1 "pageSize"
      let d2 := derase d1 "pageSize"
      let cursor_path := dget d2 "cursorPath"
      let d3 := derase d2 "cursorPath"
      let stop_condition := dget d3 "stopCondition"
      let d4 := derase d3 "stopCondition"
      .ok ⟨type_, page_size, cursor_path, stop_condition, d4⟩
  | _ => .error .typeError

/-- `superglue_client/models/tool_step.py` — `ToolStep`.  Constructor
defaults: `modify = False`, `failure_behavior = FAIL`, everything
optional else `UNSET`. -/
structure ToolStep where
  id : Json
  url : Json
  method : ToolStepMethod
  system_id : Json
  query_params : Option PropBag := none
  headers : Option PropBag := none
  body : Option Json := none
  pagination : Option Pagination := none
  instruction : Option Json := none
  modify : Option Json := some (.bool false)
  data_selector : Option Json := none
  failure_behavior : Option ToolStepFailureBehavior := some .FAIL
  additional_properties : JDict := []
  deriving Repr

/-- `ToolStep.to_dict`. -/
def ToolStep.toDict (s : ToolStep) : JDict :=
  let fd := s.additional_properties
  let fd := dinsert fd "id" s.id
  let fd := dinsert fd "url" s.url
  let fd := dinsert fd "method" (.str s.method.val)
  let fd := dinsert fd "systemId" s.system_id
  let fd := dinsertOpt fd "queryParams" (s.query_params.map fun b => .obj b.toDict)
  let fd := dinsertOpt fd "headers" (s.headers.map fun b => .obj b.toDict)
  let fd := dinsertOpt fd "body" s.body
  let fd := dinsertOpt fd "pagination" (s.pagination.map fun p => .obj p.toDict)
  let fd := dinsertOpt fd "instruction" s.instruction
  let fd := dinsertOpt fd "modify" s.modify
  let fd := dinsertOpt fd "dataSelector" s.data_selector
  dinsertOpt fd "failureBehavior" (s.failure_behavior.map fun b => .str b.val)

/-- `ToolStep.from_dict`. -/
def ToolStep.fromDict : Json → Except PyErr ToolStep
  | .obj d0 =>
      match dget d0 "id" with
      | none => .error (.keyError "id")
      | some id =>
      let d1 := derase d0 "id"
      match dget d1 "url" with
      | none => .error (.keyError "url")
      | some url =>
      let d2 := derase d1 "url"
      match dget d2 "method" with
      | none => .error (.keyError "method")
      | some methodJ =>
      let d3 := derase d2 "method"
      match ToolStepMethod.ofJson methodJ with
      | .error e => .error e
      | .ok method =>
      match dget d3 "systemId" with
      | none => .error (.keyError "systemId")
      | some system_id =>
      let d4 := derase d3 "systemId"
      match decodeOpt PropBag.fromJson (dget d4 "queryParams") with
      | .error e => .error e
      | .ok query_params =>
      let d5 := derase d4 "queryParams"
      match decodeOpt PropBag.fromJson (dget d5 "headers") with
      | .error e => .error e
      | .ok headers =>
      let d6 := derase d5 "headers"
      let body := dget d6 "body"
      let d7 := derase d6 "body"
      match decodeOpt Pagination.fromDict (dget d7 "pagination") with
      | .error e => .error e
      | .ok pagination =>
      let d8 := derase d7 "pagination"
      let instruction := dget d8 "instruction"
      let d9 := derase d8 "instruction"
      let modify := dget d9 "modify"
      let d10 := derase d9 "modify"
      let data_selector := dget d10 "dataSelector"
      let d11 := derase d10 "dataSelector"
      match decodeOpt ToolStepFailureBehavior.ofJson (dget d11 "failureBehavior") with
      | .error e => .error e
      | .ok failure_behavior =>
      let d12 := derase d11 "failureBehavior"
      .ok ⟨id, url, method, system_id, query_params, headers, body, pagination,
        instruction, modify, data_selector, failure_behavior, d12⟩
  | _ => .error .typeError

/-- `superglue_client/models/tool.py` — `Tool`.  The submodels
`ToolInputSchema` and `ToolOutputSchema` are free-form records. -/
structure Tool where
  id : Json
  steps : List ToolStep
  name : Option Json := none
  version : Option Json := none
  instruction : Option Json := none
  input_schema : Option PropBag := none
  output_schema : Option PropBag := none
  output_transform : Option Json := none
  created_at : Option PyDatetime := none
  updated_at : Option PyDatetime := none
  additional_properties : JDict := []
  deriving Repr

/-- `Tool.to_dict`. -/
def Tool.toDict (t : Tool) : JDict :=
  let fd := t.additional_properties
  let fd := dinsert fd "id" t.id
  let fd := dinsert fd "steps" (.arr (t.steps.map fun s => .obj s.toDict))
  let fd := dinsertOpt fd "name" t.name
  let fd := dinsertOpt fd "version" t.version
  let fd := dinsertOpt fd "instruction" t.instruction
  let fd := dinsertOpt fd "inputSchema" (t.input_schema.map fun b => .obj b.toDict)
  let fd := dinsertOpt fd "outputSchema" (t.output_schema.map fun b => .obj b.toDict)
  let fd := dinsertOpt fd "outputTransform" t.output_transform
  let fd := dinsertOpt fd "createdAt" (t.created_at.map fun d => .str d.isoformat)
  dinsertOpt fd "updatedAt" (t.updated_at.map fun d => .str d.isoformat)

/-- `Tool.from_dict`. -/
def Tool.fromDict : Json → Except PyErr Tool
  | .obj d0 =>
      match dget d0 "id" with
      | none => .error (.keyError "id")
      | some id =>
      let d1 := derase d0 "id"
      match dget d1 "steps" with
      | none => .error (.keyError "steps")
      | some stepsJ =>
      let d2 := derase d1 "steps"
      match decodeListJson ToolStep.fromDict stepsJ with
      | .error e => .error e
      | .ok steps =>
      let name := dget d2 "name"
      let d3 := derase d2 "name"
      let version := dget d3 "version"
      let d4 := derase d3 "version"
      let instruction := dget d4 "instruction"
      let d5 := derase d4 "instruction"
      match decodeOpt PropBag.fromJson (dget d5 "inputSchema") with
      | .error e => .error e
      | .ok input_schema =>
      let d6 := derase d5 "inputSchema"
      match decodeOpt PropBag.fromJson (dget d6 "outputSchema") with
      | .error e => .error e
      | .ok output_schema =>
      let d7 := derase d6 "outputSchema"
      let output_transform := dget d7 "outputTransform"
      let d8 := derase d7 "outputTransform"
      match decodeOptDatetime (dget d8 "createdAt") with
      | .error e => .error e
      | .ok created_at =>
      let d9 := derase d8 "createdAt"
      match decodeOptDatetime (dget d9 "updatedAt") with
      | .error e => .error e
      | .ok updated_at =>
      let d10 := derase d9 "updatedAt"
      .ok ⟨id, steps, name, version, instruction, input_schema, output_schema,
        output_transform, created_at, updated_at, d10⟩
  | _ => .error .typeError

/-- `superglue_client/models/list_runs_response_200.py` —
`ListRunsResponse200`. -/
structure ListRunsResponse200 where
  data : Option (List Run) := none
  page : Option Json := none
  limit : Option Json := none
  total : Option Json := none
  has_more : Option Json := none
  additional_properties : JDict := []
  deriving Repr

/-- `ListRunsResponse200.to_dict`. -/
def ListRunsResponse200.toDict (r : ListRunsResponse200) : JDict :=
  let fd := r.additional_properties
  let fd := dinsertOpt fd "data" (r.data.map fun xs => .arr (xs.map fun x => .obj x.toDict))
  let fd := dinsertOpt fd "page" r.page
  let fd := dinsertOpt fd "limit" r.limit
  let fd := dinsertOpt fd "total" r.total
  dinsertOpt fd "hasMore" r.has_more

/-- `ListRunsResponse200.from_dict`. -/
def ListRunsResponse200.fromDict : Json → Except PyErr ListRunsResponse200
  | .obj d0 =>
      match decodeOptList Run.fromDict (dget d0 "data") with
      | .error e => .error e
      | .ok data =>
      let d1 := derase d0 "data"
      let page := dget d1 "page"
      let d2 := derase d1 "page"
      let limit := dget d2 "limit"
      let d3 := derase d2 "limit"
      let total := dget d3 "total"
      let d4 := derase d3 "total"
      let has_more := dget d4 "hasMore"
      let d5 := derase d4 "hasMore"
      .ok ⟨data, page, limit, total, has_more, d5⟩
  | _ => .error .typeError

/-- Modelled from the spec: `models/error.py` is not under src/.  Error
payloads "follow a uniform `{error: {...}}`-style shape ... always
mapping to the same Error entity"; the nested `ErrorError` object is a
free-form record, and the field is mapped by the usual optional-submodel
pattern. -/
structure Error where
  error : Option PropBag := none
  additional_properties : JDict := []
  deriving Repr

/-- Modelled from the spec: `Error.to_dict`. -/
def Error.toDict (e : Error) : JDict :=
  let fd := e.additional_properties
  dinsertOpt fd "error" (e.error.map fun b => .obj b.toDict)

/-- Modelled from the spec: `Error.from_dict`. -/
def Error.fromDict : Json → Except PyErr Error
  | .obj d0 =>
      match decodeOpt PropBag.fromJson (dget d0 "error") with
      | .error e => .error e
      | .ok error =>
      let d1 := derase d0 "error"
      .ok ⟨error, d1⟩
  | _ => .error .typeError

/-! ### URL quoting

`_get_kwargs` interpolates each path parameter with
`quote(str(x), safe="")`: every UTF-8 byte outside the always-safe set
(letters, digits, `_`, `.`, `-`, `~`) is percent-encoded with uppercase
hex digits; nothing else is treated as safe. -/

/-- A byte `urllib.parse.quote` leaves unescaped when `safe=""`. -/
def isSafeByte (b : Nat) : Bool :=
  (48 ≤ b && b ≤ 57) || (65 ≤ b && b ≤ 90) || (97 ≤ b && b ≤ 122) ||
    b == 95 || b == 46 || b == 45 || b == 126

/-- Uppercase hexadecimal digit. -/
def hexDigit (n : Nat) : Char :=
  if n < 10 then Char.ofNat (48 + n) else Char.ofNat (55 + n)

/-- Percent-encoding of one UTF-8 byte. -/
def quoteByte (b : Nat) : List Char :=
  if isSafeByte b then [Char.ofNat b]
  else ['%', hexDigit (b / 16), hexDigit (b % 16)]

/-- UTF-8 encoding of one code point. -/
def utf8Bytes (u : Nat) : List Nat :=
  if u < 128 then [u]
  else if u < 2048 then [192 + u / 64, 128 + u % 64]
  else if u < 65536 then [224 + u / 4096, 128 + u / 64 % 64, 128 + u % 64]
  else [240 + u / 262144, 128 + u / 4096 % 64, 128 + u / 64 % 64, 128 + u % 64]

/-- `urllib.parse.quote(str(x), safe="")`. -/
def urlQuote (s : String) : String :=
  ⟨(s.data.flatMap fun c => utf8Bytes c.toNat).flatMap quoteByte⟩

/-! ### Endpoint layer -/

/-- `Json` null test (`v is None`). -/
def Json.isNull : Json → Bool
  | .null => true
  | _ => false

/-- The relevant configuration shared by `Client` and
`AuthenticatedClient`. -/
structure Client where
  raise_on_unexpected_status : Bool

/-- The request descriptor dict returned by `_get_kwargs`. -/
structure Kwargs where
  method : String
  url : String
  params : JDict := []
  jsonBody : Option JDict := none
  headers : List (String × String) := []
  deriving Repr

/-- An `httpx.Response`: numeric status code, JSON body (the result of
`response.json()`), raw content, headers. -/
structure HttpxResponse where
  status_code : Nat
  body : Json
  content : String
  headers : List (String × String)

/-- The generated `Response[T]` wrapper built by `_build_response`. -/
structure ApiResponse (α : Type) where
  status_code : Nat
  content : String
  headers : List (String × String)
  parsed : Option α

/-- An error signalled during response mapping: `errors.UnexpectedStatus`,
or a Python exception escaping a model decoder. -/
inductive ClientErr where
  | unexpectedStatus (code : Nat) (content : String) : ClientErr
  | py (e : PyErr) : ClientErr
  deriving DecidableEq, Repr

/-! #### RunTool (`superglue_client/api/tools/run_tool.py`) -/

/-- `run_tool._get_kwargs`. -/
def runTool_get_kwargs (tool_id : String) (body : RunRequest) : Kwargs :=
  { method := "post"
    url := "/tools/" ++ urlQuote tool_id ++ "/run"
    jsonBody := some body.toDict
    headers := [("Content-Type", "application/json")] }

/-- `run_tool._parse_response`. -/
def runTool_parse_response (client : Client) (response : HttpxResponse) :
    Except ClientErr (Option (Error ⊕ Run)) :=
  if response.status_code = 200 then
    ((Run.fromDict response.body).map fun r => some (.inr r)).mapError .py
  else if response.status_code = 202 then
    ((Run.fromDict response.body).map fun r => some (.inr r)).mapError .py
  else if response.status_code = 400 then
    ((Error.fromDict response.body).map fun e => some (.inl e)).mapError .py
  else if response.status_code = 409 then
    ((Error.fromDict response.body).map fun e => some (.inl e)).mapError .py
  else if response.status_code = 410 then
    ((Error.fromDict response.body).map fun e => some (.inl e)).mapError .py
  else if response.status_code = 429 then
    ((Error.fromDict response.body).map fun e => some (.inl e)).mapError .py
  else if client.raise_on_unexpected_status then
    .error (.unexpectedStatus response.status_code response.content)
  else
    .ok none

/-- `run_tool._build_response`. -/
def runTool_build_response (client : Client) (response : HttpxResponse) :
    Except ClientErr (ApiResponse (Error ⊕ Run)) :=
  (runTool_parse_response client response).map fun parsed =>
    { status_code := response.status_code
      content := response.content
      headers := response.headers
      parsed := parsed }

/-- `run_tool.sync_detailed`: builds the kwargs, performs the single
blocking transport call, maps the response. -/
def runTool_sync_detailed (send : Kwargs → HttpxResponse) (tool_id : String)
    (client : Client) (body : RunRequest) :
    Except ClientErr (ApiResponse (Error ⊕ Run)) :=
  let kwargs := runTool_get_kwargs tool_id body
  let response := send kwargs
  runTool_build_response client response

/-- `run_tool.sync`. -/
def runTool_sync (send : Kwargs → HttpxResponse) (tool_id : String)
    (client : Client) (body : RunRequest) :
    Except ClientErr (Option (Error ⊕ Run)) :=
  (runTool_sync_detailed send tool_id client body).map ApiResponse.parsed

/-- `run_tool.asyncio_detailed`: identical logic, with the transport call
awaited on the async client. -/
def runTool_asyncio_detailed (send : Kwargs → HttpxResponse) (tool_id : String)
    (client : Client) (body : RunRequest) :
    Except ClientErr (ApiResponse (Error ⊕ Run)) :=
  let kwargs := runTool_get_kwargs tool_id body
  let response := send kwargs
  runTool_build_response client response

/-- `run_tool.asyncio`. -/
def runTool_asyncio (send : Kwargs → HttpxResponse) (tool_id : String)
    (client : Client) (body : RunRequest) :
    Except ClientErr (Option (Error ⊕ Run)) :=
  (runTool_asyncio_detailed send tool_id client body).map ApiResponse.parsed

/-! #### ListRuns (`superglue_client/api/runs/list_runs.py`) -/

/-- `list_runs._get_kwargs`: assembles the query dict, then drops
entries that are `UNSET` or `None`. -/
def listRuns_get_kwargs (tool_id : Option String) (status : Option ListRunsStatus)
    (page : Option Int) (limit : Option Int) : Kwargs :=
  let params : List (String × Option Json) :=
    [("toolId", tool_id.map .str),
     ("status", status.map fun s => .str s.val),
     ("page", page.map .num),
     ("limit", limit.map .num)]
  { method := "get"
    url := "/runs"
    params := params.filterMap fun kv =>
      match kv.2 with
      | some v => if v.isNull then none else some (kv.1, v)
      | none => none }

/-- `list_runs._parse_response`. -/
def listRuns_parse_response (client : Client) (response : HttpxResponse) :
    Except ClientErr (Option ListRunsResponse200) :=
  if response.status_code = 200 then
    ((ListRunsResponse200.fromDict response.body).map some).mapError .py
  else if client.raise_on_unexpected_status then
    .error (.unexpectedStatus response.status_code response.content)
  else
    .ok none

/-- `list_runs._build_response`. -/
def listRuns_build_response (client : Client) (response : HttpxResponse) :
    Except ClientErr (ApiResponse ListRunsResponse200) :=
  (listRuns_parse_response client response).map fun parsed =>
    { status_code := response.status_code
      content := response.content
      headers := response.headers
      parsed := parsed }

/-- `list_runs.sync_detailed`. -/
def listRuns_sync_detailed (send : Kwargs → HttpxResponse) (client : Client)
    (tool_id : Option String) (status : Option ListRunsStatus)
    (page : Option Int) (limit : Option Int) :
    Except ClientErr (ApiResponse ListRunsResponse200) :=
  let kwargs := listRuns_get_kwargs tool_id status page limit
  let response := send kwargs
  listRuns_build_response client response

/-- `list_runs.sync`. -/
def listRuns_sync (send : Kwargs → HttpxResponse) (client : Client)
    (tool_id : Option String) (status : Option ListRunsStatus)
    (page : Option Int) (limit : Option Int) :
    Except ClientErr (Option ListRunsResponse200) :=
  (listRuns_sync_detailed send client tool_id status page limit).map ApiResponse.parsed

/-- `list_runs.asyncio_detailed`. -/
def listRuns_asyncio_detailed (send : Kwargs → HttpxResponse) (client : Client)
    (tool_id : Option String) (status : Option ListRunsStatus)
    (page : Option Int) (limit : Option Int) :
    Except ClientErr (ApiResponse ListRunsResponse200) :=
  let kwargs := listRuns_get_kwargs tool_id status page limit
  let response := send kwargs
  listRuns_build_response client response

/-- `list_runs.asyncio`. -/
def listRuns_asyncio (send : Kwargs → HttpxResponse) (client : Client)
    (tool_id : Option String) (status : Option ListRunsStatus)
    (page : Option Int) (limit : Option Int) :
    Except ClientErr (Option ListRunsResponse200) :=
  (listRuns_asyncio_detailed send client tool_id status page limit).map ApiResponse.parsed

/-! #### CancelRun (`superglue_sdk/api/runs/cancel_run.py`) -/

/-- `cancel_run._get_kwargs`. -/
def cancelRun_get_kwargs (run_id : String) : Kwargs :=
  { method := "post"
    url := "/runs/" ++ urlQuote run_id ++ "/cancel" }

/-- `cancel_run._parse_response`. -/
def cancelRun_parse_response (client : Client) (response : HttpxResponse) :
    Except ClientErr (Option (Error ⊕ Run)) :=
  if response.status_code = 200 then
    ((Run.fromDict response.body).map fun r => some (.inr r)).mapError .py
  else if response.status_code = 400 then
    ((Error.fromDict response.body).map fun e => some (.inl e)).mapError .py
  else if client.raise_on_unexpected_status then
    .error (.unexpectedStatus response.status_code response.content)
  else
    .ok none

/-- `cancel_run._build_response`. -/
def cancelRun_build_response (client : Client) (response : HttpxResponse) :
    Except ClientErr (ApiResponse (Error ⊕ Run)) :=
  (cancelRun_parse_response client response).map fun parsed =>
    { status_code := response.status_code
      content := response.content
      headers := response.headers
      parsed := parsed }

/-- `cancel_run.sync_detailed`. -/
def cancelRun_sync_detailed (send : Kwargs → HttpxResponse) (run_id : String)
    (client : Client) : Except ClientErr (ApiResponse (Error ⊕ Run)) :=
  let kwargs := cancelRun_get_kwargs run_id
  let response := send kwargs
  cancelRun_build_response client response

/-- `cancel_run.sync`. -/
def cancelRun_sync (send : Kwargs → HttpxResponse) (run_id : String)
    (client : Client) : Except ClientErr (Option (Error ⊕ Run)) :=
  (cancelRun_sync_detailed send run_id client).map ApiResponse.parsed

/-- `cancel_run.asyncio_detailed`. -/
def cancelRun_asyncio_detailed (send : Kwargs → HttpxResponse) (run_id : String)
    (client : Client) : Except ClientErr (ApiResponse (Error ⊕ Run)) :=
  let kwargs := cancelRun_get_kwargs run_id
  let response := send kwargs
  cancelRun_build_response client response

/-- `cancel_run.asyncio`. -/
def cancelRun_asyncio (send : Kwargs → HttpxResponse) (run_id : String)
    (client : Client) : Except ClientErr (Option (Error ⊕ Run)) :=
  (cancelRun_asyncio_detailed send run_id client).map ApiResponse.parsed

/-! #### GetTool (`superglue_sdk/api/tools/get_tool.py`) -/

/-- `get_tool._get_kwargs`. -/
def getTool_get_kwargs (tool_id : String) : Kwargs :=
  { method := "get"
    url := "/tools/" ++ urlQuote tool_id }

/-- `get_tool._parse_response`. -/
def getTool_parse_response (client : Client) (response : HttpxResponse) :
    Except ClientErr (Option (Error ⊕ Tool)) :=
  if response.status_code = 200 then
    ((Tool.fromDict response.body).map fun t => some (.inr t)).mapError .py
  else if response.status_code = 404 then
    ((Error.fromDict response.body).map fun e => some (.inl e)).mapError .py
  else if client.raise_on_unexpected_status then
    .error (.unexpectedStatus response.status_code response.content)
  else
    .ok none

/-- `get_tool._build_response`. -/
def getTool_build_response (client : Client) (response : HttpxResponse) :
    Except ClientErr (ApiResponse (Error ⊕ Tool)) :=
  (getTool_parse_response client response).map fun parsed =>
    { status_code := response.status_code
      content := response.content
      headers := response.headers
      parsed := parsed }

/-- `get_tool.sync_detailed`. -/
def getTool_sync_detailed (send : Kwargs → HttpxResponse) (tool_id : String)
    (client : Client) : Except ClientErr (ApiResponse (Error ⊕ Tool)) :=
  let kwargs := getTool_get_kwargs tool_id
  let response := send kwargs
  getTool_build_response client response

/-- `get_tool.sync`. -/
def getTool_sync (send : Kwargs → HttpxResponse) (tool_id : String)
    (client : Client) : Except ClientErr (Option (Error ⊕ Tool)) :=
  (getTool_sync_detailed send tool_id client).map ApiResponse.parsed

/-- `get_tool.asyncio_detailed`. -/
def getTool_asyncio_detailed (send : Kwargs → HttpxResponse) (tool_id : String)
    (client : Client) : Except ClientErr (ApiResponse (Error ⊕ Tool)) :=
  let kwargs := getTool_get_kwargs tool_id
  let response := send kwargs
  getTool_build_response client response

/-- `get_tool.asyncio`. -/
def getTool_asyncio (send : Kwargs → HttpxResponse) (tool_id : String)
    (client : Client) : Except ClientErr (Option (Error ⊕ Tool)) :=
  (getTool_asyncio_detailed send tool_id client).map ApiResponse.parsed

/-! ### Supporting lemmas: enum decode inversion -/

theorem runStatus_val_of_ofVal {s : String} {e : RunStatus}
    (h : RunStatus.ofVal s = .ok e) : e.val = s := by
  unfold RunStatus.ofVal at h
  split_ifs at h with h1 h2 h3 h4
  · injection h with h2; subst h2; rw [h1]; rfl
  · injection h with h3; subst h3; rw [h2]; rfl
  · injection h with h4; subst h4; rw [h3]; rfl
  · injection h with h5; subst h5; rw [h4]; rfl

theorem listRunsStatus_val_of_ofVal {s : String} {e : ListRunsStatus}
    (h : ListRunsStatus.ofVal s = .ok e) : e.val = s := by
  unfold ListRunsStatus.ofVal at h
  split_ifs at h with h1 h2 h3 h4
  · injection h with h2; subst h2; rw [h1]; rfl
  · injection h with h3; subst h3; rw [h2]; rfl
  · injection h with h4; subst h4; rw [h3]; rfl
  · injection h with h5; subst h5; rw [h4]; rfl

theorem paginationType_val_of_ofVal {s : String} {e : PaginationType}
    (h : PaginationType.ofVal s = .ok e) : e.val = s := by
  unfold PaginationType.ofVal at h
  split_ifs at h with h1 h2 h3 h4
  · injection h with h2; subst h2; rw [h1]; rfl
  · injection h with h3; subst h3; rw [h2]; rfl
  · injection h with h4; subst h4; rw [h3]; rfl
  · injection h with h5; subst h5; rw [h4]; rfl

theorem toolStepMethod_val_of_ofVal {s : String} {e : ToolStepMethod}
    (h : ToolStepMethod.ofVal s = .ok e) : e.val = s := by
  unfold ToolStepMethod.ofVal at h
  split_ifs at h with h1 h2 h3 h4 h5 h6 h7
  · injection h with g; subst g; rw [h1]; rfl
  · injection h with g; subst g; rw [h2]; rfl
  · injection h with g; subst g; rw [h3]; rfl
  · injection h with g; subst g; rw [h4]; rfl
  · injection h with g; subst g; rw [h5]; rfl
  · injection h with g; subst g; rw [h6]; rfl
  · injection h with g; subst g; rw [h7]; rfl

theorem failureBehavior_val_of_ofVal {s : String} {e : ToolStepFailureBehavior}
    (h : ToolStepFailureBehavior.ofVal s = .ok e) : e.val = s := by
  unfold ToolStepFailureBehavior.ofVal at h
  split_ifs at h with h1 h2
  · injection h with g; subst g; rw [h1]; rfl
  · injection h with g; subst g; rw [h2]; rfl

theorem runStatus_ofVal_not_mem {s : String}
    (h1 : s ≠ "aborted") (h2 : s ≠ "failed") (h3 : s ≠ "running") (h4 : s ≠ "success") :
    RunStatus.ofVal s = .error .valueError := by
  simp [RunStatus.ofVal, h1, h2, h3, h4]

theorem listRunsStatus_ofVal_not_mem {s : String}
    (h1 : s ≠ "aborted") (h2 : s ≠ "failed") (h3 : s ≠ "running") (h4 : s ≠ "success") :
    ListRunsStatus.ofVal s = .error .valueError := by
  simp [ListRunsStatus.ofVal, h1, h2, h3, h4]

theorem paginationType_ofVal_not_mem {s : String}
    (h1 : s ≠ "cursorBased") (h2 : s ≠ "disabled") (h3 : s ≠ "offsetBased")
    (h4 : s ≠ "pageBased") :
    PaginationType.ofVal s = .error .valueError := by
  simp [PaginationType.ofVal, h1, h2, h3, h4]

theorem toolStepMethod_ofVal_not_mem {s : String}
    (h1 : s ≠ "DELETE") (h2 : s ≠ "GET") (h3 : s ≠ "HEAD") (h4 : s ≠ "OPTIONS")
    (h5 : s ≠ "PATCH") (h6 : s ≠ "POST") (h7 : s ≠ "PUT") :
    ToolStepMethod.ofVal s = .error .valueError := by
  simp [ToolStepMethod.ofVal, h1, h2, h3, h4, h5, h6, h7]

theorem failureBehavior_ofVal_not_mem {s : String}
    (h1 : s ≠ "continue") (h2 : s ≠ "fail") :
    ToolStepFailureBehavior.ofVal s = .error .valueError := by
  simp [ToolStepFailureBehavior.ofVal, h1, h2]

/-! ### Claims -/

/-- C7: for each operation (ListRuns, RunTool, CancelRun, GetTool), with
identical typed arguments and an identical transport (hence identical
server response), the blocking and non-blocking variants build the same
request descriptor by the shared `_get_kwargs` and produce identical
results through the shared `_build_response` — both for the `_detailed`
wrappers and for the plain `sync`/`asyncio` accessors. -/
theorem async_sync_parity :
    (∀ (send : Kwargs → HttpxResponse) (tool_id : String) (client : Client)
        (body : RunRequest),
        runTool_sync_detailed send tool_id client body
          = runTool_asyncio_detailed send tool_id client body) ∧
    (∀ (send : Kwargs → HttpxResponse) (tool_id : String) (client : Client)
        (body : RunRequest),
        runTool_sync send tool_id client body
          = runTool_asyncio send tool_id client body) ∧
    (∀ (send : Kwargs → HttpxResponse) (client : Client) (tool_id : Option String)
        (status : Option ListRunsStatus) (page limit : Option Int),
        listRuns_sync_detailed send client tool_id status page limit
          = listRuns_asyncio_detailed send client tool_id status page limit) ∧
    (∀ (send : Kwargs → HttpxResponse) (client : Client) (tool_id : Option String)
        (status : Option ListRunsStatus) (page limit : Option Int),
        listRuns_sync send client tool_id status page limit
          = listRuns_asyncio send client tool_id status page limit) ∧
    (∀ (send : Kwargs → HttpxResponse) (run_id : String) (client : Client),
        cancelRun_sync_detailed send run_id client
          = cancelRun_asyncio_detailed send run_id client) ∧
    (∀ (send : Kwargs → HttpxResponse) (run_id : String) (client : Client),
        cancelRun_sync send run_id client = cancelRun_asyncio send run_id client) ∧
    (∀ (send : Kwargs → HttpxResponse) (tool_id : String) (client : Client),
        getTool_sync_detailed send tool_id client
          = getTool_asyncio_detailed send tool_id client) ∧
    (∀ (send : Kwargs → HttpxResponse) (tool_id : String) (client : Client),
        getTool_sync send tool_id client = getTool_asyncio send tool_id client) :=
  ⟨fun _ _ _ _ => rfl, fun _ _ _ _ => rfl, fun _ _ _ _ _ _ => rfl,
    fun _ _ _ _ _ _ => rfl, fun _ _ _ => rfl, fun _ _ _ => rfl,
    fun _ _ _ => rfl, fun _ _ _ => rfl⟩

/-- C2: the RunTool response mapper sends 200 and 202 to a parsed `Run`,
each of 400, 409, 410 and 429 to a parsed `Error`, and any other status
code to `UnexpectedStatus(code, rawBody)` when the client is configured
to raise, and to an empty (`None`) parsed result otherwise. -/
theorem runTool_status_dispatch (client : Client) (resp : HttpxResponse) :
    ((resp.status_code = 200 ∨ resp.status_code = 202) →
      runTool_parse_response client resp
        = ((Run.fromDict resp.body).map fun r => some (Sum.inr r)).mapError ClientErr.py) ∧
    ((resp.status_code = 400 ∨ resp.status_code = 409 ∨ resp.status_code = 410 ∨
        resp.status_code = 429) →
      runTool_parse_response client resp
        = ((Error.fromDict resp.body).map fun e => some (Sum.inl e)).mapError ClientErr.py) ∧
    (resp.status_code ∉ ([200, 202, 400, 409, 410, 429] : List Nat) →
      runTool_parse_response client resp
        = if client.raise_on_unexpected_status
          then .error (.unexpectedStatus resp.status_code resp.content)
          else .ok none) := by
  refine ⟨?_, ?_, ?_⟩
  · rintro (h | h) <;> simp [runTool_parse_response, h]
  · rintro (h | h | h | h) <;> simp [runTool_parse_response, h]
  · intro h
    simp only [List.mem_cons, List.not_mem_nil, or_false, not_or] at h
    obtain ⟨n200, n202, n400, n409, n410, n429⟩ := h
    simp [runTool_parse_response, n200, n202, n400, n409, n410, n429]

/-- C2 witness: concrete responses through the RunTool mapper — a 500
response raises `UnexpectedStatus` under `raise_on_unexpected_status`,
and a 200 response with a decodable body parses to a `Run`. -/
theorem runTool_status_dispatch_witness :
    runTool_parse_response ⟨true⟩ ⟨500, .obj [], "boom", []⟩
      = .error (.unexpectedStatus 500 "boom") ∧
    runTool_parse_response ⟨true⟩
        ⟨200, .obj [("runId", .str "r"), ("toolId", .str "t"),
          ("status", .str "success"), ("metadata", .obj [])], "", []⟩
      = .ok (some (.inr ⟨.str "r", .str "t", .SUCCESS, ⟨none, none, none, []⟩,
          none, none, none, none, none, none, none, none, []⟩)) := by
  constructor
  · rw [(runTool_status_dispatch ⟨true⟩ ⟨500, .obj [], "boom", []⟩).2.2 (by decide)]
    rfl
  · rw [(runTool_status_dispatch ⟨true⟩ _).1 (Or.inl rfl)]
    rfl

/-- C5: enum closure for the five status enums: decoding any string
outside the declared literal set fails with `ValueError` (the spec's
`InvalidEnumValue`), and decoding each declared literal succeeds and
re-encodes to the identical literal; anchored in `Pagination.from_dict`,
which fails on an undeclared `type` literal. -/
theorem enum_closure :
    (∀ e : RunStatus, RunStatus.ofVal e.val = .ok e) ∧
    (∀ (s : String) (e : RunStatus), RunStatus.ofVal s = .ok e → e.val = s) ∧
    (∀ s : String, s ∉ (["aborted", "failed", "running", "success"] : List String) →
      RunStatus.ofVal s = .error .valueError) ∧
    (∀ e : ListRunsStatus, ListRunsStatus.ofVal e.val = .ok e) ∧
    (∀ (s : String) (e : ListRunsStatus), ListRunsStatus.ofVal s = .ok e → e.val = s) ∧
    (∀ s : String, s ∉ (["aborted", "failed", "running", "success"] : List String) →
      ListRunsStatus.ofVal s = .error .valueError) ∧
    (∀ e : PaginationType, PaginationType.ofVal e.val = .ok e) ∧
    (∀ (s : String) (e : PaginationType), PaginationType.ofVal s = .ok e → e.val = s) ∧
    (∀ s : String, s ∉ (["cursorBased", "disabled", "offsetBased", "pageBased"] : List String) →
      PaginationType.ofVal s = .error .valueError) ∧
    (∀ e : ToolStepMethod, ToolStepMethod.ofVal e.val = .ok e) ∧
    (∀ (s : String) (e : ToolStepMethod), ToolStepMethod.ofVal s = .ok e → e.val = s) ∧
    (∀ s : String,
      s ∉ (["DELETE", "GET", "HEAD", "OPTIONS", "PATCH", "POST", "PUT"] : List String) →
      ToolStepMethod.ofVal s = .error .valueError) ∧
    (∀ e : ToolStepFailureBehavior, ToolStepFailureBehavior.ofVal e.val = .ok e) ∧
    (∀ (s : String) (e : ToolStepFailureBehavior),
      ToolStepFailureBehavior.ofVal s = .ok e → e.val = s) ∧
    (∀ s : String, s ∉ (["continue", "fail"] : List String) →
      ToolStepFailureBehavior.ofVal s = .error .valueError) ∧
    (∀ (w : JDict) (s : String), dget w "type" = some (.str s) →
      s ∉ (["cursorBased", "disabled", "offsetBased", "pageBased"] : List String) →
      Pagination.fromDict (.obj w) = .error .valueError) := by
  refine ⟨runStatus_ofVal_val, fun _ _ => runStatus_val_of_ofVal, ?_,
    listRunsStatus_ofVal_val, fun _ _ => listRunsStatus_val_of_ofVal, ?_,
    paginationType_ofVal_val, fun _ _ => paginationType_val_of_ofVal, ?_,
    toolStepMethod_ofVal_val, fun _ _ => toolStepMethod_val_of_ofVal, ?_,
    failureBehavior_ofVal_val, fun _ _ => failureBehavior_val_of_ofVal, ?_,
    ?_⟩
  · intro s h
    simp only [List.mem_cons, List.not_mem_nil, or_false, not_or] at h
    exact runStatus_ofVal_not_mem h.1 h.2.1 h.2.2.1 h.2.2.2
  · intro s h
    simp only [List.mem_cons, List.not_mem_nil, or_false, not_or] at h
    exact listRunsStatus_ofVal_not_mem h.1 h.2.1 h.2.2.1 h.2.2.2
  · intro s h
    simp only [List.mem_cons, List.not_mem_nil, or_false, not_or] at h
    exact paginationType_ofVal_not_mem h.1 h.2.1 h.2.2.1 h.2.2.2
  · intro s h
    simp only [List.mem_cons, List.not_mem_nil, or_false, not_or] at h
    exact toolStepMethod_ofVal_not_mem h.1 h.2.1 h.2.2.1 h.2.2.2.1 h.2.2.2.2.1
      h.2.2.2.2.2.1 h.2.2.2.2.2.2
  · intro s h
    simp only [List.mem_cons, List.not_mem_nil, or_false, not_or] at h
    exact failureBehavior_ofVal_not_mem h.1 h.2
  · intro w s hget hs
    simp only [List.mem_cons, List.not_mem_nil, or_false, not_or] at hs
    simp [Pagination.fromDict, hget, PaginationType.ofJson,
      paginationType_ofVal_not_mem hs.1 hs.2.1 hs.2.2.1 hs.2.2.2]

/-- C5 witness: a declared literal decodes and re-encodes identically, an
undeclared literal fails with `ValueError`, and `Pagination.from_dict`
fails on an undeclared `type` literal. -/
theorem enum_closure_witness :
    RunStatus.ofVal "success" = .ok .SUCCESS ∧
    RunStatus.ofVal "succeeded" = .error .valueError ∧
    ToolStepMethod.ofVal "GET" = .ok .GET ∧
    Pagination.fromDict (.obj [("type", .str "timeBased")]) = .error .valueError := by
  refine ⟨?_, ?_, ?_, ?_⟩
  · exact enum_closure.1 .SUCCESS
  · exact enum_closure.2.2.1 "succeeded" (by decide)
  · exact enum_closure.2.2.2.2.2.2.2.2.2.1 .GET
  · exact enum_closure.2.2.2.2.2.2.2.2.2.2.2.2.2.2.2 [("type", .str "timeBased")]
      "timeBased" rfl (by decide)

/-! ### Supporting lemmas: URL quoting -/

set_option maxRecDepth 4000 in
theorem slash_not_mem_quoteByte : ∀ b, b < 256 → '/' ∉ quoteByte b := by decide

theorem utf8Bytes_lt (u : Nat) (hu : u < 1114112) : ∀ b ∈ utf8Bytes u, b < 256 := by
  intro b hb
  unfold utf8Bytes at hb
  split_ifs at hb with h1 h2 h3
  · simp only [List.mem_cons, List.not_mem_nil, or_false] at hb
    omega
  · have hd : u / 64 < 32 := by
      rw [Nat.div_lt_iff_lt_mul (by norm_num)]
      omega
    have hm : u % 64 < 64 := Nat.mod_lt _ (by norm_num)
    simp only [List.mem_cons, List.not_mem_nil, or_false] at hb
    rcases hb with rfl | rfl <;> omega
  · have hd : u / 4096 < 16 := by
      rw [Nat.div_lt_iff_lt_mul (by norm_num)]
      omega
    have hm1 : u / 64 % 64 < 64 := Nat.mod_lt _ (by norm_num)
    have hm2 : u % 64 < 64 := Nat.mod_lt _ (by norm_num)
    simp only [List.mem_cons, List.not_mem_nil, or_false] at hb
    rcases hb with rfl | rfl | rfl <;> omega
  · have hd : u / 262144 < 5 := by
      rw [Nat.div_lt_iff_lt_mul (by norm_num)]
      omega
    have hm1 : u / 4096 % 64 < 64 := Nat.mod_lt _ (by norm_num)
    have hm2 : u / 64 % 64 < 64 := Nat.mod_lt _ (by norm_num)
    have hm3 : u % 64 < 64 := Nat.mod_lt _ (by norm_num)
    simp only [List.mem_cons, List.not_mem_nil, or_false] at hb
    rcases hb with rfl | rfl | rfl | rfl <;> omega

theorem char_toNat_lt (c : Char) : c.toNat < 1114112 := by
  have h := c.valid
  unfold UInt32.isValidChar Nat.isValidChar at h
  rcases h with h | ⟨h1, h2⟩
  · calc c.val.toNat < 0xd800 := h
      _ < 1114112 := by norm_num
  · exact h2

/-- No raw `/` survives `quote(x, safe="")`. -/
theorem slash_not_mem_urlQuote (s : String) : '/' ∉ (urlQuote s).data := by
  intro hmem
  have hmem2 : '/' ∈ (s.data.flatMap fun c => utf8Bytes c.toNat).flatMap quoteByte := hmem
  rw [List.mem_flatMap] at hmem2
  obtain ⟨b, hb, hslash⟩ := hmem2
  rw [List.mem_flatMap] at hb
  obtain ⟨c, _, hbc⟩ := hb
  exact slash_not_mem_quoteByte b (utf8Bytes_lt c.toNat (char_toNat_lt c) b hbc) hslash

/-- A `/` in the input is rendered as the three characters `%2F`. -/
theorem percent2F_infix_urlQuote (s : String) (h : '/' ∈ s.data) :
    List.IsInfix ['%', '2', 'F'] (urlQuote s).data := by
  obtain ⟨l1, l2, hsplit⟩ := List.append_of_mem h
  show List.IsInfix _ ((s.data.flatMap fun c => utf8Bytes c.toNat).flatMap quoteByte)
  rw [hsplit]
  refine ⟨(l1.flatMap fun c => utf8Bytes c.toNat).flatMap quoteByte,
    (l2.flatMap fun c => utf8Bytes c.toNat).flatMap quoteByte, ?_⟩
  simp [List.flatMap_append, List.flatMap_cons]
  rfl

/-- C8: every string path parameter (tool_id in RunTool and GetTool,
run_id in CancelRun) is interpolated into the fixed path template through
`quote(x, safe="")`; the quoted segment never contains a raw `/`, and a
parameter containing `/` yields the escape sequence `%2F` instead of a
path separator. -/
theorem path_encoding :
    (∀ (tool_id : String) (body : RunRequest),
      (runTool_get_kwargs tool_id body).url = "/tools/" ++ urlQuote tool_id ++ "/run") ∧
    (∀ tool_id : String, (getTool_get_kwargs tool_id).url = "/tools/" ++ urlQuote tool_id) ∧
    (∀ run_id : String,
      (cancelRun_get_kwargs run_id).url = "/runs/" ++ urlQuote run_id ++ "/cancel") ∧
    (∀ s : String, '/' ∉ (urlQuote s).data) ∧
    (∀ s : String, '/' ∈ s.data → List.IsInfix ['%', '2', 'F'] (urlQuote s).data) :=
  ⟨fun _ _ => rfl, fun _ => rfl, fun _ => rfl, slash_not_mem_urlQuote,
    percent2F_infix_urlQuote⟩

/-- C8 witness: the tool id `a/b` produces the RunTool path
`/tools/a%2Fb/run`, with the `%2F` escape in place of the slash. -/
theorem path_encoding_witness :
    (runTool_get_kwargs "a/b" ⟨none, none, none, none, []⟩).url = "/tools/a%2Fb/run" ∧
    List.IsInfix ['%', '2', 'F'] (urlQuote "a/b").data := by
  constructor
  · rw [path_encoding.1 "a/b" ⟨none, none, none, none, []⟩]
    decide
  · exact path_encoding.2.2.2.2 "a/b" (by decide)

theorem dget_derase_ne {d : JDict} {k k' : String} (h : k ≠ k') :
    dget (derase d k') k = dget d k := by
  induction d with
  | nil => rfl
  | cons kv rest ih =>
      by_cases hk : kv.1 = k'
      · have hne : ¬(kv.1 = k) := fun hh => h (hh.symm.trans hk)
        simp only [derase, if_pos hk, dget, if_neg hne, ih]
      · simp only [derase, if_neg hk, dget]
        rw [ih]

/-- C10: decoding is not total on explicit `null` for list-valued fields:
`ListRunsResponse200.from_dict` tests `data` only against the `UNSET`
sentinel and then iterates the value, so an explicit `null` raises an
uncaught `TypeError` instead of producing an entity or a typed decode
error; `Run.from_dict` treats `stepResults` the same way and never
returns an entity on such input. -/
theorem null_list_field_raises :
    (∀ w : JDict, dget w "data" = some .null →
      ListRunsResponse200.fromDict (.obj w) = .error .typeError) ∧
    (∀ (w : JDict) (r : Run), dget w "stepResults" = some .null →
      Run.fromDict (.obj w) ≠ .ok r) := by
  constructor
  · intro w h
    simp [ListRunsResponse200.fromDict, h, decodeOptList, decodeListJson, Except.map]
  · intro w r h hok
    simp only [Run.fromDict] at hok
    repeat' split at hok
    all_goals
      simp_all [dget_derase_ne (show ("stepResults" : String) ≠ "runId" by decide),
        dget_derase_ne (show ("stepResults" : String) ≠ "toolId" by decide),
        dget_derase_ne (show ("stepResults" : String) ≠ "status" by decide),
        dget_derase_ne (show ("stepResults" : String) ≠ "metadata" by decide),
        dget_derase_ne (show ("stepResults" : String) ≠ "tool" by decide),
        dget_derase_ne (show ("stepResults" : String) ≠ "toolPayload" by decide),
        dget_derase_ne (show ("stepResults" : String) ≠ "data" by decide),
        dget_derase_ne (show ("stepResults" : String) ≠ "error" by decide),
        decodeOptList, decodeListJson, Except.map]

/-- C10 witness: a `ListRuns` page with `"data": null` raises `TypeError`,
and a `Run` wire object with `"stepResults": null` does not decode. -/
theorem null_list_field_raises_witness :
    ListRunsResponse200.fromDict (.obj [("data", .null)]) = .error .typeError ∧
    Run.fromDict (.obj [("runId", .str "r"), ("toolId", .str "t"),
        ("status", .str "running"), ("metadata", .obj []), ("stepResults", .null)])
      ≠ .ok ⟨.str "r", .str "t", .RUNNING, ⟨none, none, none, []⟩, none, none,
        none, none, none, none, none, none, []⟩ := by
  constructor
  · exact null_list_field_raises.1 [("data", .null)] rfl
  · exact null_list_field_raises.2 _ _ rfl

/-- C6: `from_dict` on a wire object missing a required field raises
`KeyError`, and a required typed field whose coercion fails raises the
coercion's exception (`ValueError` for an invalid enum literal,
`TypeError` for a non-dict `metadata`) — the spec's `SchemaError` — and
never returns an entity, shown for `Run` (runId, toolId, status,
metadata), `Tool` (id, steps) and `ToolStep` (id, method). -/
theorem required_field_failures :
    (∀ w : JDict, dget w "runId" = none →
      Run.fromDict (.obj w) = .error (.keyError "runId")) ∧
    (∀ (w : JDict) (v : Json), dget w "runId" = some v → dget w "toolId" = none →
      Run.fromDict (.obj w) = .error (.keyError "toolId")) ∧
    (∀ (w : JDict) (v1 v2 : Json), dget w "runId" = some v1 →
      dget w "toolId" = some v2 → dget w "status" = none →
      Run.fromDict (.obj w) = .error (.keyError "status")) ∧
    (∀ (w : JDict) (v1 v2 : Json) (s : String), dget w "runId" = some v1 →
      dget w "toolId" = some v2 → dget w "status" = some (.str s) →
      s ∉ (["aborted", "failed", "running", "success"] : List String) →
      Run.fromDict (.obj w) = .error .valueError) ∧
    (∀ (w : JDict) (v1 v2 sv : Json) (st : RunStatus), dget w "runId" = some v1 →
      dget w "toolId" = some v2 → dget w "status" = some sv →
      RunStatus.ofJson sv = .ok st → dget w "metadata" = none →
      Run.fromDict (.obj w) = .error (.keyError "metadata")) ∧
    (∀ (w : JDict) (v1 v2 sv : Json) (st : RunStatus), dget w "runId" = some v1 →
      dget w "toolId" = some v2 → dget w "status" = some sv →
      RunStatus.ofJson sv = .ok st → dget w "metadata" = some .null →
      Run.fromDict (.obj w) = .error .typeError) ∧
    (∀ w : JDict, dget w "id" = none →
      Tool.fromDict (.obj w) = .error (.keyError "id")) ∧
    (∀ (w : JDict) (v : Json), dget w "id" = some v → dget w "steps" = none →
      Tool.fromDict (.obj w) = .error (.keyError "steps")) ∧
    (∀ w : JDict, dget w "id" = none →
      ToolStep.fromDict (.obj w) = .error (.keyError "id")) ∧
    (∀ (w : JDict) (v1 v2 : Json) (s : String), dget w "id" = some v1 →
      dget w "url" = some v2 → dget w "method" = some (.str s) →
      s ∉ (["DELETE", "GET", "HEAD", "OPTIONS", "PATCH", "POST", "PUT"] : List String) →
      ToolStep.fromDict (.obj w) = .error .valueError) := by
  have ne1 : ("toolId" : String) ≠ "runId" := by decide
  have ne2 : ("status" : String) ≠ "runId" := by decide
  have ne3 : ("status" : String) ≠ "toolId" := by decide
  have ne4 : ("metadata" : String) ≠ "runId" := by decide
  have ne5 : ("metadata" : String) ≠ "toolId" := by decide
  have ne6 : ("metadata" : String) ≠ "status" := by decide
  have ne7 : ("steps" : String) ≠ "id" := by decide
  have ne8 : ("url" : String) ≠ "id" := by decide
  have ne9 : ("method" : String) ≠ "id" := by decide
  have ne10 : ("method" : String) ≠ "url" := by decide
  refine ⟨?_, ?_, ?_, ?_, ?_, ?_, ?_, ?_, ?_, ?_⟩
  · intro w h
    simp [Run.fromDict, h]
  · intro w v h1 h2
    simp [Run.fromDict, h1, dget_derase_ne ne1, h2]
  · intro w v1 v2 h1 h2 h3
    simp [Run.fromDict, h1, dget_derase_ne ne1, h2, dget_derase_ne ne2,
      dget_derase_ne ne3, h3]
  · intro w v1 v2 s h1 h2 h3 hs
    simp only [List.mem_cons, List.not_mem_nil, or_false, not_or] at hs
    simp [Run.fromDict, h1, dget_derase_ne ne1, h2, dget_derase_ne ne2,
      dget_derase_ne ne3, h3, RunStatus.ofJson,
      runStatus_ofVal_not_mem hs.1 hs.2.1 hs.2.2.1 hs.2.2.2]
  · intro w v1 v2 sv st h1 h2 h3 hst h4
    simp [Run.fromDict, h1, dget_derase_ne ne1, h2, dget_derase_ne ne2,
      dget_derase_ne ne3, h3, hst, dget_derase_ne ne4, dget_derase_ne ne5,
      dget_derase_ne ne6, h4]
  · intro w v1 v2 sv st h1 h2 h3 hst h4
    simp [Run.fromDict, h1, dget_derase_ne ne1, h2, dget_derase_ne ne2,
      dget_derase_ne ne3, h3, hst, dget_derase_ne ne4, dget_derase_ne ne5,
      dget_derase_ne ne6, h4, RunMetadata.fromDict]
  · intro w h
    simp [Tool.fromDict, h]
  · intro w v h1 h2
    simp [Tool.fromDict, h1, dget_derase_ne ne7, h2]
  · intro w h
    simp [ToolStep.fromDict, h]
  · intro w v1 v2 s h1 h2 h3 hs
    simp only [List.mem_cons, List.not_mem_nil, or_false, not_or] at hs
    simp [ToolStep.fromDict, h1, dget_derase_ne ne8, h2, dget_derase_ne ne9,
      dget_derase_ne ne10, h3, ToolStepMethod.ofJson,
      toolStepMethod_ofVal_not_mem hs.1 hs.2.1 hs.2.2.1 hs.2.2.2.1 hs.2.2.2.2.1
        hs.2.2.2.2.2.1 hs.2.2.2.2.2.2]

/-- C6 witness: concrete decode failures — an empty wire object for `Run`
and for `Tool`, and an invalid `status` literal. -/
theorem required_field_failures_witness :
    Run.fromDict (.obj []) = .error (.keyError "runId") ∧
    Run.fromDict (.obj [("runId", .str "r"), ("toolId", .str "t"),
        ("status", .str "pending")]) = .error .valueError ∧
    Tool.fromDict (.obj []) = .error (.keyError "id") := by
  refine ⟨?_, ?_, ?_⟩
  · exact required_field_failures.1 [] rfl
  · exact required_field_failures.2.2.2.1 _ (.str "r") (.str "t") "pending"
      rfl rfl rfl (by decide)
  · exact required_field_failures.2.2.2.2.2.2.1 [] rfl

/-- C9 counterexample: on the minimal accepted wire object (only the
required keys, no `modify`, no `failureBehavior`), `from_dict` yields a
step whose `modify` is the unset sentinel — not the boolean `False` —
and whose `failure_behavior` is unset — not `FAIL` — because `from_dict`
passes the popped `UNSET` sentinel to the constructor, overriding both
declared defaults. -/
theorem toolStep_defaults_counterexample :
    (ToolStep.fromDict (.obj [("id", .str "a"), ("url", .str "u"),
        ("method", .str "GET"), ("systemId", .str "s")])).map
      (fun ts => (ts.modify, ts.failure_behavior)) = .ok (none, none) ∧
    (none : Option Json) ≠ some (.bool false) ∧
    (none : Option ToolStepFailureBehavior) ≠ some .FAIL := by
  refine ⟨rfl, by simp, by simp⟩

theorem mem_dkeys_derase_iff {d : JDict} {k k' : String} (h : k ≠ k') :
    k ∈ dkeys (derase d k') ↔ k ∈ dkeys d := by
  induction d with
  | nil => simp [derase]
  | cons kv rest ih =>
      by_cases hk : kv.1 = k'
      · have hne : ¬(k = kv.1) := fun hh => h (hh.trans hk)
        simp only [derase, if_pos hk, ih, dkeys_cons, List.mem_cons, hne, false_or]
      · simp only [derase, if_neg hk, dkeys_cons, List.mem_cons, ih]

/-- C9 amended: two independent laws. For every wire object accepted by
`ToolStep.from_dict` that lacks the `modify` key — whatever its other
keys — the resulting step's `modify` field is the unset sentinel (falsy,
and omitted on re-serialization) rather than the boolean `False`;
likewise, for every accepted wire object lacking `failureBehavior`, its
`failure_behavior` is unset rather than the `fail` member — the
`False`/`FAIL` defaults apply only to direct construction. -/
theorem toolStep_defaults_amended :
    (∀ (w : JDict) (ts : ToolStep), "modify" ∉ dkeys w →
      ToolStep.fromDict (.obj w) = .ok ts → ts.modify = none) ∧
    (∀ (w : JDict) (ts : ToolStep), "failureBehavior" ∉ dkeys w →
      ToolStep.fromDict (.obj w) = .ok ts → ts.failure_behavior = none) := by
  constructor
  · intro w ts h1 hok
    simp only [ToolStep.fromDict] at hok
    repeat' split at hok
    any_goals exact Except.noConfusion hok
    rename_i x fb heq
    injection hok with hok
    subst hok
    show dget _ "modify" = none
    simp +decide [dget_eq_none_of_not_mem, mem_dkeys_derase_iff, h1]
  · intro w ts h2 hok
    simp only [ToolStep.fromDict] at hok
    repeat' split at hok
    any_goals exact Except.noConfusion hok
    rename_i x fb heq
    injection hok with hok
    subst hok
    show fb = none
    have hnone : dget (derase (derase (derase (derase (derase (derase (derase
        (derase (derase (derase (derase w "id") "url") "method") "systemId")
        "queryParams") "headers") "body") "pagination") "instruction") "modify")
        "dataSelector") "failureBehavior" = none := by
      simp +decide [dget_eq_none_of_not_mem, mem_dkeys_derase_iff, h2]
    rw [hnone] at heq
    simpa [decodeOpt] using heq.symm

theorem toolStep_defaults_amended_witness :
    ToolStep.fromDict (.obj [("id", .str "a"), ("url", .str "u"),
        ("method", .str "GET"), ("systemId", .str "s"),
        ("failureBehavior", .str "continue")])
      = .ok ⟨.str "a", .str "u", .GET, .str "s", none, none, none, none, none,
        none, none, some .CONTINUE, []⟩ ∧
    (⟨.str "a", .str "u", .GET, .str "s", none, none, none, none, none,
        none, none, some .CONTINUE, []⟩ : ToolStep).modify = none ∧
    ToolStep.fromDict (.obj [("id", .str "a"), ("url", .str "u"),
        ("method", .str "GET"), ("systemId", .str "s"),
        ("modify", .bool true)])
      = .ok ⟨.str "a", .str "u", .GET, .str "s", none, none, none, none, none,
        some (.bool true), none, none, []⟩ ∧
    (⟨.str "a", .str "u", .GET, .str "s", none, none, none, none, none,
        some (.bool true), none, none, []⟩ : ToolStep).failure_behavior = none :=
  ⟨rfl,
    toolStep_defaults_amended.1 [("id", .str "a"), ("url", .str "u"),
      ("method", .str "GET"), ("systemId", .str "s"),
      ("failureBehavior", .str "continue")]
      ⟨.str "a", .str "u", .GET, .str "s", none, none, none, none, none,
        none, none, some .CONTINUE, []⟩ (by decide) rfl,
    rfl,
    toolStep_defaults_amended.2 [("id", .str "a"), ("url", .str "u"),
      ("method", .str "GET"), ("systemId", .str "s"),
      ("modify", .bool true)]
      ⟨.str "a", .str "u", .GET, .str "s", none, none, none, none, none,
        some (.bool true), none, none, []⟩ (by decide) rfl⟩

/-! ### Further dict lemmas: lookups through `dinsert` -/

theorem dget_cons (kv : String × Json) (d : JDict) (key : String) :
    dget (kv :: d) key = if kv.1 = key then some kv.2 else dget d key := rfl

theorem dget_map_replace_mem {d : JDict} {k : String} (v : Json) (h : k ∈ dkeys d) :
    dget (d.map fun kv => if kv.1 = k then (k, v) else kv) k = some v := by
  induction d with
  | nil => simp [dkeys_nil] at h
  | cons kv rest ih =>
      by_cases hk : kv.1 = k
      · simp [List.map_cons, hk, dget_cons]
      · rw [List.map_cons, if_neg hk, dget_cons, if_neg hk]
        rw [dkeys_cons, List.mem_cons] at h
        rcases h with h | h
        · exact absurd h.symm hk
        · exact ih h

theorem dget_map_replace_ne {d : JDict} {k k' : String} (v : Json) (h : k' ≠ k) :
    dget (d.map fun kv => if kv.1 = k then (k, v) else kv) k' = dget d k' := by
  have hne : ¬(k = k') := fun hh => h hh.symm
  induction d with
  | nil => rfl
  | cons kv rest ih =>
      by_cases hk : kv.1 = k
      · rw [List.map_cons, if_pos hk]
        simp [dget_cons, hne, hk, ih]
      · rw [List.map_cons, if_neg hk, dget_cons, dget_cons]
        by_cases hk2 : kv.1 = k'
        · rw [if_pos hk2, if_pos hk2]
        · rw [if_neg hk2, if_neg hk2]
          exact ih

theorem dget_dinsert_self (d : JDict) (k : String) (v : Json) :
    dget (dinsert d k v) k = some v := by
  unfold dinsert
  split
  · exact dget_map_replace_mem v (by assumption)
  · rename_i hmem
    rw [dget_append_right _ hmem]
    simp [dget]

theorem dget_dinsert_ne (d : JDict) {k k' : String} (v : Json) (h : k' ≠ k) :
    dget (dinsert d k v) k' = dget d k' := by
  have hne : ¬(k = k') := fun hh => h hh.symm
  unfold dinsert
  split
  · exact dget_map_replace_ne v h
  · rename_i hmem
    clear hmem
    induction d with
    | nil => simp [dget_cons, hne, dget]
    | cons kv rest ih =>
        rw [List.cons_append, dget_cons, dget_cons]
        by_cases hk2 : kv.1 = k'
        · rw [if_pos hk2, if_pos hk2]
        · rw [if_neg hk2, if_neg hk2]
          exact ih

theorem dinsertOpt_none (d : JDict) (k : String) : dinsertOpt d k none = d := rfl

theorem dinsertOpt_some (d : JDict) (k : String) (v : Json) :
    dinsertOpt d k (some v) = dinsert d k v := rfl

theorem dget_dinsertOpt_ne (d : JDict) {k k' : String} (o : Option Json) (h : k' ≠ k) :
    dget (dinsertOpt d k o) k' = dget d k' := by
  cases o with
  | none => rfl
  | some v => exact dget_dinsert_ne d v h

theorem dget_dinsertOpt_self {d : JDict} {k : String} (o : Option Json)
    (h : k ∉ dkeys d) : dget (dinsertOpt d k o) k = o := by
  cases o with
  | none => exact dget_eq_none_of_not_mem h
  | some v => exact dget_dinsert_self d k v

theorem mem_dkeys_derase_self_iff (d : JDict) (k : String) :
    k ∈ dkeys (derase d k) ↔ False :=
  ⟨not_mem_dkeys_derase_self d k, False.elim⟩

theorem mem_dkeys_dinsert_iff (d : JDict) (k k' : String) (v : Json) :
    k' ∈ dkeys (dinsert d k v) ↔ (k' ∈ dkeys d ∨ k' = k) := by
  rw [dkeys_dinsert]
  split
  · rename_i hmem
    constructor
    · exact Or.inl
    · rintro (hh | rfl)
      · exact hh
      · exact hmem
  · simp [List.mem_append]

theorem mem_dkeys_dinsertOpt_iff (d : JDict) (k k' : String) (o : Option Json) :
    k' ∈ dkeys (dinsertOpt d k o) ↔ (k' ∈ dkeys d ∨ (k' = k ∧ o ≠ none)) := by
  cases o with
  | none => simp [dinsertOpt]
  | some v => simp [dinsertOpt, mem_dkeys_dinsert_iff]

/-- C3 counterexample: an additional-properties entry whose key collides
with an unset declared field makes that key appear in `to_dict` output —
the bag is written into the output dict before the omission checks. -/
theorem omission_law_counterexample :
    (⟨none, none, none, none, [("runId", .str "x")]⟩ : RunRequest).run_id = none ∧
    "runId" ∈ dkeys ((⟨none, none, none, none,
      [("runId", .str "x")]⟩ : RunRequest).toDict) :=
  ⟨rfl, by decide⟩

/-- C3 amended: an optional field left unset never appears as a key in
`to_dict` output provided the additional-properties bag does not itself
contain that field's wire key, shown for every optional field of
`RunRequest` and of `Run`. -/
theorem omission_law_amended :
    (∀ r : RunRequest,
      (r.run_id = none → "runId" ∉ dkeys r.additional_properties →
        "runId" ∉ dkeys r.toDict) ∧
      (r.inputs = none → "inputs" ∉ dkeys r.additional_properties →
        "inputs" ∉ dkeys r.toDict) ∧
      (r.credentials = none → "credentials" ∉ dkeys r.additional_properties →
        "credentials" ∉ dkeys r.toDict) ∧
      (r.options = none → "options" ∉ dkeys r.additional_properties →
        "options" ∉ dkeys r.toDict)) ∧
    (∀ r : Run,
      (r.tool = none → "tool" ∉ dkeys r.additional_properties →
        "tool" ∉ dkeys r.toDict) ∧
      (r.tool_payload = none → "toolPayload" ∉ dkeys r.additional_properties →
        "toolPayload" ∉ dkeys r.toDict) ∧
      (r.data = none → "data" ∉ dkeys r.additional_properties →
        "data" ∉ dkeys r.toDict) ∧
      (r.error = none → "error" ∉ dkeys r.additional_properties →
        "error" ∉ dkeys r.toDict) ∧
      (r.step_results = none → "stepResults" ∉ dkeys r.additional_properties →
        "stepResults" ∉ dkeys r.toDict) ∧
      (r.options = none → "options" ∉ dkeys r.additional_properties →
        "options" ∉ dkeys r.toDict) ∧
      (r.request_source = none → "requestSource" ∉ dkeys r.additional_properties →
        "requestSource" ∉ dkeys r.toDict) ∧
      (r.trace_id = none → "traceId" ∉ dkeys r.additional_properties →
        "traceId" ∉ dkeys r.toDict)) := by
  constructor
  · intro r
    refine ⟨?_, ?_, ?_, ?_⟩ <;>
      · intro hf hb
        simp only [RunRequest.toDict, hf, Option.map_none', dinsertOpt_none]
        simp +decide [mem_dkeys_dinsertOpt_iff, mem_dkeys_dinsert_iff, hb]
  · intro r
    refine ⟨?_, ?_, ?_, ?_, ?_, ?_, ?_, ?_⟩ <;>
      · intro hf hb
        simp only [Run.toDict, hf, Option.map_none', dinsertOpt_none]
        simp +decide [mem_dkeys_dinsertOpt_iff, mem_dkeys_dinsert_iff, hb]

/-- C3 amended witness: a fully-unset `RunRequest` with an unrelated bag
entry emits neither `runId` nor `options`, and an all-optional-unset
`Run` emits no `error` key. -/
theorem omission_law_amended_witness :
    "runId" ∉ dkeys ((⟨none, none, none, none,
      [("extra", .num 1)]⟩ : RunRequest).toDict) ∧
    "error" ∉ dkeys ((⟨.str "r", .str "t", .SUCCESS, ⟨none, none, none, []⟩,
      none, none, none, none, none, none, none, none,
      [("extra", .num 1)]⟩ : Run).toDict) :=
  ⟨(omission_law_amended.1 ⟨none, none, none, none, [("extra", .num 1)]⟩).1
      rfl (by decide),
    (omission_law_amended.2 ⟨.str "r", .str "t", .SUCCESS, ⟨none, none, none, []⟩,
      none, none, none, none, none, none, none, none,
      [("extra", .num 1)]⟩).2.2.2.1 rfl (by decide)⟩

/-- C4 counterexample: an explicit `null` for the entity-typed optional
field `tool` does not decode to a present null value — `from_dict` calls
`RunTool.from_dict(None)`, i.e. `dict(None)`, which raises `TypeError`,
so no entity is produced to re-serialize. -/
theorem tristate_counterexample :
    Run.fromDict (.obj [("runId", .str "r"), ("toolId", .str "t"),
      ("status", .str "success"), ("metadata", .obj []), ("tool", .null)])
      = .error .typeError := rfl

/-- C4 amended: tri-state preservation holds for the plain string-typed
optional fields of `Run` (`error`, `requestSource`, `traceId`): a key
absent from the wire object stays absent from the re-serialized object
and a key explicitly present as `null` is re-emitted as `null`; for the
entity-typed optional fields (e.g. `tool`), an explicit `null` instead
raises an exception and no entity is returned. -/
theorem tristate_preservation :
    (∀ (w : JDict) (r : Run), Run.fromDict (.obj w) = .ok r →
      (dget w "error" = none → dget (Run.toDict r) "error" = none) ∧
      (dget w "error" = some .null → dget (Run.toDict r) "error" = some .null) ∧
      (dget w "requestSource" = none → dget (Run.toDict r) "requestSource" = none) ∧
      (dget w "requestSource" = some .null →
        dget (Run.toDict r) "requestSource" = some .null) ∧
      (dget w "traceId" = none → dget (Run.toDict r) "traceId" = none) ∧
      (dget w "traceId" = some .null → dget (Run.toDict r) "traceId" = some .null)) ∧
    (∀ (w : JDict) (r : Run), dget w "tool" = some .null →
      Run.fromDict (.obj w) ≠ .ok r) := by
  constructor
  · intro w r hok
    simp only [Run.fromDict] at hok
    repeat' split at hok
    any_goals exact Except.noConfusion hok
    injection hok with hok
    subst hok
    refine ⟨?_, ?_, ?_, ?_, ?_, ?_⟩ <;>
      · intro hw
        simp +decide [Run.toDict, dget_dinsertOpt_ne, dget_dinsert_ne,
          dget_derase_ne, hw, dinsertOpt_none, dinsertOpt_some, dget_dinsert_self,
          dget_eq_none_of_not_mem, mem_dkeys_derase_iff, mem_dkeys_derase_self_iff]
  · intro w r hw hok
    simp only [Run.fromDict] at hok
    repeat' split at hok
    all_goals
      simp_all +decide [dget_derase_ne, decodeOpt, PropBag.fromJson, Except.map]

/-- C4 witness: a run decoded from a payload with `"error": null` (and no
`traceId`) re-serializes `error` as explicit `null` and omits `traceId`. -/
theorem tristate_preservation_witness :
    dget (Run.toDict ⟨.str "r", .str "t", .FAILED, ⟨none, none, none, []⟩,
      none, none, none, some .null, none, none, none, none, []⟩) "error"
        = some .null ∧
    dget (Run.toDict ⟨.str "r", .str "t", .FAILED, ⟨none, none, none, []⟩,
      none, none, none, some .null, none, none, none, none, []⟩) "traceId"
        = none :=
  ⟨(tristate_preservation.1 [("runId", .str "r"), ("toolId", .str "t"),
      ("status", .str "failed"), ("metadata", .obj []), ("error", .null)]
      ⟨.str "r", .str "t", .FAILED, ⟨none, none, none, []⟩,
        none, none, none, some .null, none, none, none, none, []⟩ rfl).2.1 rfl,
    (tristate_preservation.1 [("runId", .str "r"), ("toolId", .str "t"),
      ("status", .str "failed"), ("metadata", .obj []), ("error", .null)]
      ⟨.str "r", .str "t", .FAILED, ⟨none, none, none, []⟩,
        none, none, none, some .null, none, none, none, none, []⟩
      rfl).2.2.2.2.1 rfl⟩

theorem derase_append (d1 d2 : JDict) (k : String) :
    derase (d1 ++ d2) k = derase d1 k ++ derase d2 k := by
  induction d1 with
  | nil => rfl
  | cons kv rest ih =>
      rw [List.cons_append, derase, derase]
      split
      · exact ih
      · rw [List.cons_append, ih]

theorem derase_dinsert_ne_fresh {d : JDict} {k k' : String} (v : Json)
    (hne : k' ≠ k) (h : k ∉ dkeys d) :
    derase (dinsert d k v) k' = dinsert (derase d k') k v := by
  rw [dinsert_not_mem v h, derase_append,
    dinsert_not_mem v (not_mem_dkeys_derase h)]
  have hne2 : ¬(k = k') := fun hh => hne hh.symm
  congr 1
  simp [derase, hne2]

theorem derase_dinsertOpt_ne_fresh {d : JDict} {k k' : String} (o : Option Json)
    (hne : k' ≠ k) (h : k ∉ dkeys d) :
    derase (dinsertOpt d k o) k' = dinsertOpt (derase d k') k o := by
  cases o with
  | none => rfl
  | some v => exact derase_dinsert_ne_fresh v hne h

theorem derase_dinsert_self_fresh {d : JDict} {k : String} (v : Json)
    (h : k ∉ dkeys d) : derase (dinsert d k v) k = d := by
  rw [dinsert_not_mem v h, derase_append_left _ h]
  simp [derase]

theorem derase_dinsertOpt_self_fresh {d : JDict} {k : String} (o : Option Json)
    (h : k ∉ dkeys d) : derase (dinsertOpt d k o) k = d := by
  cases o with
  | none => exact derase_eq_of_not_mem h
  | some v => exact derase_dinsert_self_fresh v h

/-- The conditions under which the wire round-trip is the identity on a
`RunRequestOptions`: the bag holds no declared wire key (a Python dict
bag produced by `from_dict` never does — the declared keys are popped
first, and `to_dict` would merge a colliding key). -/
def RunRequestOptions.WF (o : RunRequestOptions) : Prop :=
  "async" ∉ dkeys o.additional_properties ∧
  "timeout" ∉ dkeys o.additional_properties ∧
  "webhookUrl" ∉ dkeys o.additional_properties ∧
  "traceId" ∉ dkeys o.additional_properties

theorem runRequestOptions_roundtrip (o : RunRequestOptions) (h : o.WF) :
    RunRequestOptions.fromDict (.obj o.toDict) = .ok o := by
  obtain ⟨a, t, wu, ti, bag⟩ := o
  obtain ⟨h1, h2, h3, h4⟩ := h
  simp +decide [RunRequestOptions.fromDict, RunRequestOptions.toDict,
    dget_dinsertOpt_ne, dget_dinsertOpt_self, derase_dinsertOpt_ne_fresh,
    derase_dinsertOpt_self_fresh, derase_eq_of_not_mem, dget_eq_none_of_not_mem,
    mem_dkeys_dinsertOpt_iff, h1, h2, h3, h4]

/-- `from_dict` round-trip conditions for `RunMetadata`: the bag holds no
declared wire key, and the datetimes are real Python datetimes. -/
def RunMetadata.WF (m : RunMetadata) : Prop :=
  "startedAt" ∉ dkeys m.additional_properties ∧
  "completedAt" ∉ dkeys m.additional_properties ∧
  "durationMs" ∉ dkeys m.additional_properties ∧
  (∀ t ∈ m.started_at, t.Valid) ∧ (∀ t ∈ m.completed_at, t.Valid)

theorem runMetadata_roundtrip (m : RunMetadata) (h : m.WF) :
    RunMetadata.fromDict (.obj m.toDict) = .ok m := by
  obtain ⟨sa, ca, dm, bag⟩ := m
  obtain ⟨h1, h2, h3, h4, h5⟩ := h
  simp +decide [RunMetadata.fromDict, RunMetadata.toDict,
    dget_dinsertOpt_ne, dget_dinsertOpt_self, derase_dinsertOpt_ne_fresh,
    derase_dinsertOpt_self_fresh, derase_eq_of_not_mem, dget_eq_none_of_not_mem,
    mem_dkeys_dinsertOpt_iff, h1, h2, h3,
    decodeOptDatetime_map sa h4, decodeOptDatetime_map ca h5]

/-- `from_dict` round-trip conditions for `RunRequest`. -/
def RunRequest.WF (r : RunRequest) : Prop :=
  "runId" ∉ dkeys r.additional_properties ∧
  "inputs" ∉ dkeys r.additional_properties ∧
  "credentials" ∉ dkeys r.additional_properties ∧
  "options" ∉ dkeys r.additional_properties ∧
  (∀ o ∈ r.options, o.WF)

theorem runRequest_roundtrip (r : RunRequest) (h : r.WF) :
    RunRequest.fromDict (.obj r.toDict) = .ok r := by
  obtain ⟨rid, inp, cred, opts, bag⟩ := r
  obtain ⟨h1, h2, h3, h4, h5⟩ := h
  simp +decide [RunRequest.fromDict, RunRequest.toDict, PropBag.toDict,
    dget_dinsertOpt_ne, dget_dinsertOpt_self, derase_dinsertOpt_ne_fresh,
    derase_dinsertOpt_self_fresh, derase_eq_of_not_mem, dget_eq_none_of_not_mem,
    mem_dkeys_dinsertOpt_iff, h1, h2, h3, h4, decodeOpt_bag,
    decodeOpt_map RunRequestOptions.fromDict (fun o => .obj o.toDict) opts
      (fun o ho => runRequestOptions_roundtrip o (h5 o ho))]

theorem runStatus_ofJson_val (e : RunStatus) :
    RunStatus.ofJson (.str e.val) = .ok e := by
  simp [RunStatus.ofJson, runStatus_ofVal_val]

/-- `from_dict` round-trip conditions for `Run`. -/
def Run.WF (r : Run) : Prop :=
  "runId" ∉ dkeys r.additional_properties ∧
  "toolId" ∉ dkeys r.additional_properties ∧
  "status" ∉ dkeys r.additional_properties ∧
  "metadata" ∉ dkeys r.additional_properties ∧
  "tool" ∉ dkeys r.additional_properties ∧
  "toolPayload" ∉ dkeys r.additional_properties ∧
  "data" ∉ dkeys r.additional_properties ∧
  "error" ∉ dkeys r.additional_properties ∧
  "stepResults" ∉ dkeys r.additional_properties ∧
  "options" ∉ dkeys r.additional_properties ∧
  "requestSource" ∉ dkeys r.additional_properties ∧
  "traceId" ∉ dkeys r.additional_properties ∧
  r.metadata.WF

set_option maxHeartbeats 1000000 in
theorem run_roundtrip (r : Run) (h : r.WF) :
    Run.fromDict (.obj r.toDict) = .ok r := by
  obtain ⟨rid, tid, st, md, tool, tp, data, err, sr, opts, rs, ti, bag⟩ := r
  obtain ⟨h1, h2, h3, h4, h5, h6, h7, h8, h9, h10, h11, h12, hmd⟩ := h
  simp +decide [Run.fromDict, Run.toDict, PropBag.toDict,
    dget_dinsertOpt_ne, dget_dinsertOpt_self, dget_dinsert_ne, dget_dinsert_self,
    derase_dinsertOpt_ne_fresh, derase_dinsertOpt_self_fresh,
    derase_dinsert_ne_fresh, derase_dinsert_self_fresh,
    derase_eq_of_not_mem, dget_eq_none_of_not_mem,
    mem_dkeys_dinsertOpt_iff, mem_dkeys_dinsert_iff,
    h1, h2, h3, h4, h5, h6, h7, h8, h9, h10, h11, h12,
    runStatus_ofJson_val, runMetadata_roundtrip md hmd, decodeOpt_bag,
    decodeOptList_map PropBag.fromJson (fun b => .obj b.additional_properties) sr
      (fun xs hxs a ha => rfl)]

/-- C1 counterexample: the round-trip is not the identity when the
additional-properties bag contains a declared wire key — `to_dict` seeds
the output with the bag, and `from_dict` then pops the colliding key into
the declared field instead of the bag. -/
theorem wire_roundtrip_counterexample :
    RunRequest.fromDict (.obj ((⟨none, none, none, none,
        [("runId", .str "boom")]⟩ : RunRequest).toDict))
      ≠ .ok (⟨none, none, none, none, [("runId", .str "boom")]⟩ : RunRequest) := by
  intro hcontra
  have heval : RunRequest.fromDict (.obj ((⟨none, none, none, none,
        [("runId", .str "boom")]⟩ : RunRequest).toDict))
      = .ok (⟨some (.str "boom"), none, none, none, []⟩ : RunRequest) := rfl
  rw [heval] at hcontra
  injection hcontra with hcontra
  exact Option.noConfusion (congrArg RunRequest.run_id hcontra)

/-- C1 amended: for the `RunRequest` and `Run` entities,
`from_dict(to_dict(x)) == x` for every value `x` — fully- or
minimally-populated, nested records and list fields included — provided
every additional-properties bag involved (the entity's own and those of
its nested records) contains no key declared by its record (`WF`), the
condition the counterexample forces; datetime components carry the bounds
every Python `datetime` satisfies. -/
theorem wire_roundtrip_amended :
    (∀ r : RunRequest, r.WF → RunRequest.fromDict (.obj r.toDict) = .ok r) ∧
    (∀ r : Run, r.WF → Run.fromDict (.obj r.toDict) = .ok r) :=
  ⟨runRequest_roundtrip, run_roundtrip⟩

/-- C1 witness: the round-trip is the identity on a fully-populated
`RunRequest` (nested inputs, credentials and options, bag entries at both
levels) and on a fully-populated `Run` (aware and naive datetimes,
fractional seconds, step results, every optional field present). -/
theorem wire_roundtrip_amended_witness :
    RunRequest.fromDict (.obj (RunRequest.toDict
        ⟨some (.str "rid"), some ⟨[("a", .num 1)]⟩, some ⟨[("k", .str "v")]⟩,
          some ⟨some (.bool true), some (.num 30), some (.str "https://w.example"),
            some (.str "tr"), [("x", .null)]⟩,
          [("extra", .bool true)]⟩))
      = .ok ⟨some (.str "rid"), some ⟨[("a", .num 1)]⟩, some ⟨[("k", .str "v")]⟩,
          some ⟨some (.bool true), some (.num 30), some (.str "https://w.example"),
            some (.str "tr"), [("x", .null)]⟩,
          [("extra", .bool true)]⟩ ∧
    Run.fromDict (.obj (Run.toDict
        ⟨.str "rid", .str "tid", .SUCCESS,
          ⟨some ⟨2024, 5, 17, 10, 30, 0, 123456, some ⟨false, 2, 0⟩⟩,
            some ⟨2024, 5, 17, 10, 30, 5, 0, none⟩, some (.num 5234), [("m", .null)]⟩,
          some ⟨[("t", .num 1)]⟩, some ⟨[]⟩, some ⟨[("out", .str "ok")]⟩,
          some (.str "err"), some [⟨[("s", .num 0)]⟩, ⟨[]⟩],
          some ⟨[("o", .bool false)]⟩, some (.str "api"), some (.str "trace"),
          [("extra", .arr [.num 1, .null])]⟩))
      = .ok ⟨.str "rid", .str "tid", .SUCCESS,
          ⟨some ⟨2024, 5, 17, 10, 30, 0, 123456, some ⟨false, 2, 0⟩⟩,
            some ⟨2024, 5, 17, 10, 30, 5, 0, none⟩, some (.num 5234), [("m", .null)]⟩,
          some ⟨[("t", .num 1)]⟩, some ⟨[]⟩, some ⟨[("out", .str "ok")]⟩,
          some (.str "err"), some [⟨[("s", .num 0)]⟩, ⟨[]⟩],
          some ⟨[("o", .bool false)]⟩, some (.str "api"), some (.str "trace"),
          [("extra", .arr [.num 1, .null])]⟩ :=
  ⟨wire_roundtrip_amended.1 _
      (by simp +decide [RunRequest.WF, RunRequestOptions.WF]),
    wire_roundtrip_amended.2 _
      (by simp +decide [Run.WF, RunMetadata.WF, PyDatetime.Valid])⟩

end Superglue
